import Mathlib

/-!
Verification development for the bas_web_game server (src/server/server.js,
src/server/schema.js, src/server/store.js).

The server-side authoritative simulation is embedded shallowly:

* JS numbers are modelled as rationals; every arithmetic operation used by
  the simulation (addition, multiplication, division by constants, min, max,
  comparisons) is exact on the values the server manipulates.
* `Math.sqrt` appears in two shapes.  In distance guards
  (`Math.sqrt(d2) > threshold`) it is embedded as the equivalent squared
  comparison `d2 > threshold^2`, exact for the real square root since both
  sides are nonnegative.  In the diagonal-speed normalisation of
  `processPlayerInput` the square root is kept as an explicit function
  parameter `sq`; every theorem below holds for every such function.
* The collision predicate `isCollidable` of `src/server/worldMap.js` is
  embedded below (tile grid, dynamic collider tiles, the static bench
  rectangle, object-derived rectangles).  The simulation functions keep the
  oracle as a parameter and the theorems quantify over it, matching the
  spec's treatment of it as a pure predicate; the counterexample traces
  instantiate it with the freshly initialised world's oracle
  `isCollidable [] []` (empty dynamic and object registries).
* JS `Map` registries are modelled as lists of records in insertion order;
  `Map.set` updates the entry in place for an existing key and appends for
  a fresh key, and in-place mutation of a looked-up record is modelled as
  updating the entry with that id.
* Followers (companions) never read or write occupant state, and persistence
  is fire-and-forget, so both are omitted from the state the claims range
  over.  Broadcasts and per-connection sends are modelled as an emitted
  event list.
-/

namespace BasWebGame

/-! ## Constants (schema.js GAME_CONFIG and server.js local constants) -/

def TICK_INTERVAL : ℚ := 1000 / 20
def PLAYER_SPEED : ℚ := 125
def MAX_PLAYERS : ℕ := 2
def TILE_SIZE : ℚ := 16
def WORLD_WIDTH : ℚ := 240 * 16
def WORLD_HEIGHT : ℚ := 180 * 16
def OBJECT_WIDTH : ℚ := 48
def OBJECT_HEIGHT : ℚ := 72
def PLAYER_RADIUS : ℚ := 10
def HUG_PROXIMITY_THRESHOLD : ℚ := 60
def HUG_DURATION : ℚ := 2000
def BENCH_X : ℚ := 2760
def BENCH_Y : ℚ := 1511
def BENCH_SEAT_OFFSET : ℚ := 14
def STAND_OFFSET : ℚ := 50

/-! ## Data model (schema.js) -/

structure Keys where
  up : Bool := false
  down : Bool := false
  left : Bool := false
  right : Bool := false
  w : Bool := false
  a : Bool := false
  s : Bool := false
  d : Bool := false
deriving DecidableEq

structure InputPacket where
  keys : Keys
  seq : ℚ
deriving DecidableEq

structure Player where
  id : String
  name : String
  character : String
  x : ℚ
  y : ℚ
  vx : ℚ
  vy : ℚ
  lastInputSeq : ℚ
  lastInput : Option InputPacket
  connected : Bool
  lastUpdate : ℚ
  hugging : Bool
  hugEndTime : ℚ
  sitting : Bool
deriving DecidableEq

def createPlayerState (playerId : String) (name : String) (character : String)
    (now : ℚ) : Player :=
  { id := playerId
    name := name
    character := character
    x := 0
    y := 0
    vx := 0
    vy := 0
    lastInputSeq := 0
    lastInput := none
    connected := true
    lastUpdate := now
    hugging := false
    hugEndTime := 0
    sitting := false }

structure DisplayObject where
  id : String
  x : ℚ
  y : ℚ
  width : ℚ
  height : ℚ
  imageSrc : String
  text : String
  createdAt : ℚ
  updatedAt : ℚ
deriving DecidableEq

structure GameState where
  players : List Player
  objects : List DisplayObject
  tick : ℕ
  lastTick : ℚ
deriving DecidableEq

def createGameState (now : ℚ) : GameState :=
  { players := [], objects := [], tick := 0, lastTick := now }

/-- A websocket connection; `playerId` is set by a successful join. -/
structure Client where
  playerId : Option String
deriving DecidableEq

/-- Messages sent by the server, to the requesting connection or broadcast. -/
inductive Event where
  | error (msg : String)
  | welcome (playerId : String)
  | playerJoined (playerId : String)
  | playerLeft (playerId : String)
  | stateUpdate
  | hugStarted (playerId1 playerId2 : String)
  | hugEnded (playerId : String)
  | objectPlaced (objectId : String)
  | objectRemoved (objectId : String)
deriving DecidableEq

/-! ## Registry helpers (JS Map keyed by id, in insertion order) -/

def findPlayer (st : GameState) (pid : String) : Option Player :=
  st.players.find? (fun p => p.id = pid)

/-- `players.set(p.id, p)`: replace the entry with that key, else append. -/
def setPlayer (ps : List Player) (p : Player) : List Player :=
  if ps.any (fun q => q.id = p.id) then
    ps.map (fun q => if q.id = p.id then p else q)
  else ps ++ [p]

def setObject (os : List DisplayObject) (o : DisplayObject) : List DisplayObject :=
  if os.any (fun q => q.id = o.id) then
    os.map (fun q => if q.id = o.id then o else q)
  else os ++ [o]

/-! ## Display-object geometry (server.js getObjectBounds / objectsOverlap) -/

structure Bounds where
  left : ℚ
  right : ℚ
  top : ℚ
  bottom : ℚ

/-- Normalised objects always carry finite width/height, so the
`Number.isFinite` fallback to the configured defaults is the identity. -/
def getObjectBounds (o : DisplayObject) : Bounds :=
  { left := o.x - o.width / 2
    right := o.x + o.width / 2
    top := o.y - o.height
    bottom := o.y }

def objectsOverlap (objectA objectB : DisplayObject) : Bool :=
  let a := getObjectBounds objectA
  let b := getObjectBounds objectB
  decide (a.left < b.right ∧ a.right > b.left ∧ a.top < b.bottom ∧ a.bottom > b.top)

/-! ## Collision footprint (server.js canMoveTo) -/

/-- Nine-point footprint test; `c` is the `isCollidable` oracle from
worldMap.js (a parameter here, see the header comment). -/
def canMoveTo (c : ℚ → ℚ → Bool) (x y : ℚ) : Bool :=
  !(c x y ||
    c (x - PLAYER_RADIUS) y ||
    c (x + PLAYER_RADIUS) y ||
    c x (y - PLAYER_RADIUS) ||
    c x (y + PLAYER_RADIUS * 0.01) ||
    c (x - PLAYER_RADIUS * 0.7) (y - PLAYER_RADIUS * 0.4) ||
    c (x + PLAYER_RADIUS * 0.7) (y - PLAYER_RADIUS * 0.4) ||
    c (x - PLAYER_RADIUS * 0.7) (y + PLAYER_RADIUS * 0.01) ||
    c (x + PLAYER_RADIUS * 0.7) (y + PLAYER_RADIUS * 0.01))

/-! ## Collision oracle (worldMap.js) -/

structure RectCollider where
  left : ℚ
  top : ℚ
  width : ℚ
  height : ℚ
deriving DecidableEq

def BENCH_SCALE : ℚ := 2.5

def BENCH_WIDTH : ℚ := 64 * BENCH_SCALE

def BENCH_HEIGHT : ℚ := 32 * BENCH_SCALE

def BENCH_COLLISION_SCALE : ℚ := 0.4

/-- The static bench collider installed unconditionally at module load. -/
def benchStaticCollider : RectCollider :=
  { left := BENCH_X - BENCH_WIDTH * BENCH_COLLISION_SCALE / 2
    top := BENCH_Y - BENCH_HEIGHT * BENCH_COLLISION_SCALE - 5
    width := BENCH_WIDTH * BENCH_COLLISION_SCALE
    height := BENCH_HEIGHT * BENCH_COLLISION_SCALE }

/-- The rectangle membership test of the static/object collider loops. -/
def pointInRectCollider (worldX worldY : ℚ) (r : RectCollider) : Bool :=
  decide (worldX ≥ r.left ∧ worldX ≤ r.left + r.width ∧
          worldY ≥ r.top ∧ worldY ≤ r.top + r.height)

/-- `isCollidable` of worldMap.js, over the dynamic collider-tile set and
the object-derived collider registry (state of that module).  The
tile-definition check never fires: every tile of WORLD_MAP is Fence or
Grass and both declare `collidable: false`. -/
def isCollidable (dynamicColliders : List (ℤ × ℤ))
    (objectColliders : List RectCollider) (worldX worldY : ℚ) : Bool :=
  let col : ℤ := ⌊worldX / TILE_SIZE⌋
  let row : ℤ := ⌊worldY / TILE_SIZE⌋
  if dynamicColliders.any (fun t => decide (t.1 = col ∧ t.2 = row)) then true
  else if row < 0 ∨ 180 ≤ row ∨ col < 0 ∨ 240 ≤ col then
    -- getTileAt returns null outside the map and isCollidable answers false
    false
  else if pointInRectCollider worldX worldY benchStaticCollider then true
  else objectColliders.any (fun r => pointInRectCollider worldX worldY r)

/-- The oracle of the freshly initialised world: no dynamic collider tiles
and no display objects, leaving only the static bench rectangle
x ∈ [2728, 2792], y ∈ [1474, 1506]. -/
def initialCollide : ℚ → ℚ → Bool := isCollidable [] []

/-! ## Input resolution (server.js processPlayerInput) -/

/-- Key state to velocity, including the diagonal normalisation; `sq` stands
for `Math.sqrt`. -/
def inputVelocity (sq : ℚ → ℚ) (keys : Keys) : ℚ × ℚ :=
  let vy1 : ℚ := if keys.up || keys.w then 0 - PLAYER_SPEED else 0
  let vy2 : ℚ := if keys.down || keys.s then vy1 + PLAYER_SPEED else vy1
  let vx1 : ℚ := if keys.left || keys.a then 0 - PLAYER_SPEED else 0
  let vx2 : ℚ := if keys.right || keys.d then vx1 + PLAYER_SPEED else vx1
  if vx2 ≠ 0 ∧ vy2 ≠ 0 then
    let length := sq (vx2 * vx2 + vy2 * vy2)
    ((vx2 / length) * PLAYER_SPEED, (vy2 / length) * PLAYER_SPEED)
  else (vx2, vy2)

def processPlayerInput (sq : ℚ → ℚ) (c : ℚ → ℚ → Bool) (now : ℚ)
    (player : Player) (input : InputPacket) : Player :=
  let deltaTime := TICK_INTERVAL / 1000
  let v := inputVelocity sq input.keys
  let vx := v.1
  let vy := v.2
  let newX := player.x + vx * deltaTime
  let newY := player.y + vy * deltaTime
  -- axis-separated resolution: X first, then Y at the (possibly updated) X;
  -- each axis commits its move exactly when the oracle allows it, else the
  -- corresponding velocity is zeroed for this tick
  let finalX := if vx ≠ 0 ∧ canMoveTo c newX player.y = true then newX else player.x
  let vxOut : ℚ := if vx ≠ 0 ∧ ¬(canMoveTo c newX player.y = true) then 0 else vx
  let finalY := if vy ≠ 0 ∧ canMoveTo c finalX newY = true then newY else player.y
  let vyOut : ℚ := if vy ≠ 0 ∧ ¬(canMoveTo c finalX newY = true) then 0 else vy
  { player with
      x := max 0 (min WORLD_WIDTH finalX)
      y := max 0 (min WORLD_HEIGHT finalY)
      vx := vxOut
      vy := vyOut
      lastInputSeq := max player.lastInputSeq input.seq
      lastUpdate := now }

/-! ## Tick (server.js gameTick) -/

/-- Embrace expiry applied to one occupant. -/
def expireHug (now : ℚ) (p : Player) : Player :=
  if p.connected = true ∧ p.hugging = true ∧ p.hugEndTime > 0 ∧ now ≥ p.hugEndTime then
    { p with hugging := false, hugEndTime := 0 }
  else p

/-- The hug_ended event emitted for one occupant by embrace expiry. -/
def expireHugEvent (now : ℚ) (p : Player) : Option Event :=
  if p.connected = true ∧ p.hugging = true ∧ p.hugEndTime > 0 ∧ now ≥ p.hugEndTime then
    some (Event.hugEnded p.id)
  else none

/-- Buffered-input application to one occupant (second loop of gameTick),
run on the post-expiry record. -/
def applyBufferedInput (sq : ℚ → ℚ) (c : ℚ → ℚ → Bool) (now : ℚ) (p : Player) : Player :=
  if p.connected = true then
    if p.hugging = true ∨ p.sitting = true then { p with vx := 0, vy := 0 }
    else
      match p.lastInput with
      | some inp => processPlayerInput sq c now p inp
      | none => { p with vx := 0, vy := 0 }
  else p

/-- One occupant's full per-tick step: embrace expiry, then input. -/
def tickPlayerStep (sq : ℚ → ℚ) (c : ℚ → ℚ → Bool) (now : ℚ) (p : Player) : Player :=
  applyBufferedInput sq c now (expireHug now p)

/-- One tick: expire embraces (emitting hug_ended per expired occupant),
apply buffered input to connected occupants, bump the counter and broadcast
a snapshot.  The clamped elapsed delta of the source feeds only the follower
update, which is omitted (followers never touch occupant state). -/
def gameTick (sq : ℚ → ℚ) (c : ℚ → ℚ → Bool) (now : ℚ) (st : GameState) :
    GameState × List Event :=
  let hugEvents := st.players.filterMap (expireHugEvent now)
  let players2 := st.players.map (tickPlayerStep sq c now)
  ({ st with players := players2, tick := st.tick + 1, lastTick := now },
   hugEvents ++ [Event.stateUpdate])

/-! ## Join (server.js handleJoin) -/

/-- `SPAWN_POINTS` from server.js. -/
def spawnPoint (i : ℕ) : ℚ × ℚ := if i = 0 then (20, 10) else (21, 10)

def connectedCount (st : GameState) : ℕ :=
  (st.players.filter (fun p => p.connected)).length

/-- Generate-or-reuse of the player id: a client-supplied id is kept only
when it is already in the registry, else the fresh generated id is used. -/
def joinPlayerId (freshId : String) (dataPlayerId : Option String)
    (st : GameState) : String :=
  match dataPlayerId with
  | some pid => if st.players.any (fun p => p.id = pid) then pid else freshId
  | none => freshId

/-- Character validation: only the strings 1 and 2 are kept. -/
def validCharacterOf (character : Option String) : String :=
  match character with
  | some ch => if ch = "1" ∨ ch = "2" then ch else "1"
  | none => "1"

/-- The freshly created occupant of a first-time join, placed on the spawn
point selected by the number of already-connected occupants. -/
def newJoinPlayer (now : ℚ) (name : Option String) (character : Option String)
    (playerId : String) (st : GameState) : Player :=
  { createPlayerState playerId (name.getD "Player") (validCharacterOf character) now with
      x := (spawnPoint (min (connectedCount st) 1)).1 * TILE_SIZE + TILE_SIZE / 2
      y := ((spawnPoint (min (connectedCount st) 1)).2 + 1) * TILE_SIZE }

/-- The resurrected occupant of a reconnecting join. -/
def rejoinPlayer (name : Option String) (character : Option String)
    (player : Player) : Player :=
  { player with
      connected := true
      name := name.getD player.name
      character := validCharacterOf character }

@[simp] lemma newJoinPlayer_id (now : ℚ) (name character : Option String)
    (playerId : String) (st : GameState) :
    (newJoinPlayer now name character playerId st).id = playerId := rfl

@[simp] lemma newJoinPlayer_connected (now : ℚ) (name character : Option String)
    (playerId : String) (st : GameState) :
    (newJoinPlayer now name character playerId st).connected = true := rfl

@[simp] lemma rejoinPlayer_id (name character : Option String) (p : Player) :
    (rejoinPlayer name character p).id = p.id := rfl

@[simp] lemma rejoinPlayer_connected (name character : Option String) (p : Player) :
    (rejoinPlayer name character p).connected = true := rfl

/-- `handleJoin`; `freshId` stands for the generated
`player_${Date.now()}_${random}` identifier, and the JS falsy test on the
supplied name/playerId strings is modelled by `Option`. -/
def handleJoin (now : ℚ) (freshId : String) (client : Client)
    (name : Option String) (character : Option String)
    (dataPlayerId : Option String) (st : GameState) :
    GameState × Client × List Event :=
  if connectedCount st ≥ MAX_PLAYERS then
    (st, client, [Event.error "Room is full. Maximum 2 players allowed."])
  else
    match st.players.find? (fun p => p.id = joinPlayerId freshId dataPlayerId st) with
    | none =>
        ({ st with
             players := setPlayer st.players
               (newJoinPlayer now name character (joinPlayerId freshId dataPlayerId st) st) },
         { playerId := some (joinPlayerId freshId dataPlayerId st) },
         [Event.welcome (joinPlayerId freshId dataPlayerId st),
          Event.playerJoined (joinPlayerId freshId dataPlayerId st)])
    | some player =>
        ({ st with players := setPlayer st.players (rejoinPlayer name character player) },
         { playerId := some (joinPlayerId freshId dataPlayerId st) },
         [Event.welcome (joinPlayerId freshId dataPlayerId st),
          Event.playerJoined (joinPlayerId freshId dataPlayerId st)])

/-! ## Input receipt (server.js handleInput) -/

def handleInput (client : Client) (input : InputPacket) (st : GameState) :
    GameState × List Event :=
  match client.playerId with
  | none => (st, [Event.error "Not authenticated"])
  | some pid =>
    match st.players.find? (fun p => p.id = pid) with
    | none => (st, [Event.error "Player not found"])
    | some player =>
      if player.connected = true then
        ({ st with players := setPlayer st.players { player with lastInput := some input } }, [])
      else (st, [Event.error "Player not found"])

/-! ## Hug (server.js handleHug) -/

/-- The in-place mutation applied to both embrace participants. -/
def hugUpdate (avgY hugEndTime : ℚ) (p : Player) : Player :=
  { p with y := avgY, hugging := true, hugEndTime := hugEndTime, vx := 0, vy := 0 }

def handleHug (now : ℚ) (client : Client) (st : GameState) :
    GameState × List Event :=
  match client.playerId with
  | none => (st, [Event.error "Not authenticated"])
  | some pid =>
    match st.players.find? (fun p => p.id = pid) with
    | none => (st, [])
    | some player =>
      if player.connected = false then (st, [])
      else if player.hugging = true then (st, [])
      else
        match st.players.filter (fun p => p.connected && !(p.id = player.id : Bool)) with
        | [] => (st, [])
        | otherPlayer :: _ =>
          let dx := player.x - otherPlayer.x
          let dy := player.y - otherPlayer.y
          -- Math.sqrt(dx*dx+dy*dy) > 60 is embedded squared (see header)
          if dx * dx + dy * dy > HUG_PROXIMITY_THRESHOLD * HUG_PROXIMITY_THRESHOLD then (st, [])
          else if otherPlayer.hugging = true then (st, [])
          else
            let hugEndTime := now + HUG_DURATION
            let avgY := (player.y + otherPlayer.y) / 2
            let players2 := st.players.map (fun q =>
              if q.id = player.id ∨ q.id = otherPlayer.id then
                hugUpdate avgY hugEndTime q
              else q)
            ({ st with players := players2 },
             [Event.hugStarted player.id otherPlayer.id])

/-! ## Bench (server.js handleBenchSit / handleBenchStand) -/

def sittingConnectedCount (st : GameState) : ℕ :=
  (st.players.filter (fun p => p.connected && p.sitting)).length

def handleBenchSit (now : ℚ) (client : Client) (st : GameState) :
    GameState × List Event :=
  match client.playerId with
  | none => (st, [Event.error "Not authenticated"])
  | some pid =>
    match st.players.find? (fun p => p.id = pid) with
    | none => (st, [Event.error "Player not found"])
    | some player =>
      if player.connected = false then (st, [Event.error "Player not found"])
      else if player.sitting = true then (st, [])
      else
        let dx := player.x - BENCH_X
        let dy := player.y - BENCH_Y
        -- Math.sqrt(dx*dx+dy*dy) > 100 is embedded squared (see header)
        if dx * dx + dy * dy > 100 * 100 then (st, [])
        else if sittingConnectedCount st ≥ 2 then (st, [])
        else
          let seatOffset : ℚ :=
            if sittingConnectedCount st = 0 then BENCH_SEAT_OFFSET else -BENCH_SEAT_OFFSET
          let player2 := { player with
            x := BENCH_X + seatOffset, y := BENCH_Y, vx := 0, vy := 0,
            sitting := true, lastUpdate := now }
          ({ st with players := setPlayer st.players player2 }, [Event.stateUpdate])

def handleBenchStand (now : ℚ) (client : Client) (st : GameState) :
    GameState × List Event :=
  match client.playerId with
  | none => (st, [Event.error "Not authenticated"])
  | some pid =>
    match st.players.find? (fun p => p.id = pid) with
    | none => (st, [Event.error "Player not found"])
    | some player =>
      if player.connected = false then (st, [Event.error "Player not found"])
      else if player.sitting = false then (st, [])
      else
        let dx := player.x - BENCH_X
        let standX : ℚ := if dx < 0 then BENCH_X - STAND_OFFSET else BENCH_X + STAND_OFFSET
        let player2 := { player with
          x := standX, y := BENCH_Y, vx := 0, vy := 0,
          sitting := false, lastUpdate := now }
        ({ st with players := setPlayer st.players player2 }, [Event.stateUpdate])

/-! ## Disconnect (server.js handleDisconnect) -/

def handleDisconnect (client : Client) (st : GameState) : GameState × List Event :=
  match client.playerId with
  | none => (st, [])
  | some pid =>
    match st.players.find? (fun p => p.id = pid) with
    | none => (st, [])
    | some player =>
      ({ st with players := setPlayer st.players { player with connected := false } },
       [Event.playerLeft pid])

/-! ## Display-object placement (server.js normalizeObjectData / handlePlaceObject) -/

structure RawObjectData where
  x : Option ℚ
  y : Option ℚ
  col : Option ℚ
  row : Option ℚ
  imageSrc : Option String
  text : Option String
  width : Option ℚ
  height : Option ℚ

/-- `normalizeObjectData`; `id` is the freshly generated identifier
(handlePlaceObject passes no id) and `now` stands for `Date.now()`.
`Option` models the `Number.isFinite` checks on incoming values. -/
def normalizeObjectData (id : String) (now : ℚ) (raw : RawObjectData) :
    Option DisplayObject :=
  let xy : Option (ℚ × ℚ) :=
    match raw.x, raw.y with
    | some x, some y => some (x, y)
    | _, _ =>
      match raw.col, raw.row with
      | some col, some row => some ((col + 0.5) * TILE_SIZE, (row + 1) * TILE_SIZE)
      | _, _ => none
  match xy with
  | none => none
  | some (x, y) =>
    some { id := id
           x := x
           y := y
           width := raw.width.getD OBJECT_WIDTH
           height := raw.height.getD OBJECT_HEIGHT
           imageSrc := raw.imageSrc.getD ""
           text := raw.text.getD ""
           createdAt := now
           updatedAt := now }

/-- `handlePlaceObject`.  The object-derived obstacle registry lives in
worldMap.js and is a function of the object registry (one rectangle per
object), so it needs no separate state here. -/
def handlePlaceObject (now : ℚ) (freshId : String) (client : Client)
    (raw : RawObjectData) (st : GameState) : GameState × List Event :=
  match client.playerId with
  | none => (st, [Event.error "Not authenticated"])
  | some _ =>
    match normalizeObjectData freshId now raw with
    | none => (st, [Event.error "Invalid object coordinates"])
    | some objectData =>
      if objectData.x < 0 ∨ objectData.x > WORLD_WIDTH ∨
         objectData.y < 0 ∨ objectData.y > WORLD_HEIGHT then
        (st, [Event.error "Object coordinates out of bounds"])
      else if st.objects.any (fun existing => objectsOverlap existing objectData) then
        (st, [])
      else
        ({ st with objects := setObject st.objects objectData },
         [Event.objectPlaced objectData.id])

/-! ## Shared helper lemmas -/

def inWorldBounds (p : Player) : Prop :=
  0 ≤ p.x ∧ p.x ≤ WORLD_WIDTH ∧ 0 ≤ p.y ∧ p.y ≤ WORLD_HEIGHT

lemma clamp_mem (x w : ℚ) (hw : 0 ≤ w) :
    0 ≤ max 0 (min w x) ∧ max 0 (min w x) ≤ w :=
  ⟨le_max_left _ _, max_le hw (min_le_left _ _)⟩

lemma processPlayerInput_fields (sq : ℚ → ℚ) (c : ℚ → ℚ → Bool) (now : ℚ)
    (p : Player) (inp : InputPacket) :
    (processPlayerInput sq c now p inp).id = p.id ∧
    (processPlayerInput sq c now p inp).connected = p.connected ∧
    (processPlayerInput sq c now p inp).hugging = p.hugging ∧
    (processPlayerInput sq c now p inp).hugEndTime = p.hugEndTime ∧
    (processPlayerInput sq c now p inp).sitting = p.sitting ∧
    (processPlayerInput sq c now p inp).lastInput = p.lastInput ∧
    (processPlayerInput sq c now p inp).lastInputSeq = max p.lastInputSeq inp.seq := by
  refine ⟨rfl, rfl, rfl, rfl, rfl, rfl, rfl⟩

lemma expireHug_fields (now : ℚ) (p : Player) :
    (expireHug now p).id = p.id ∧
    (expireHug now p).connected = p.connected ∧
    (expireHug now p).sitting = p.sitting ∧
    (expireHug now p).x = p.x ∧
    (expireHug now p).y = p.y ∧
    (expireHug now p).lastInput = p.lastInput ∧
    (expireHug now p).lastInputSeq = p.lastInputSeq := by
  unfold expireHug
  split <;> exact ⟨rfl, rfl, rfl, rfl, rfl, rfl, rfl⟩

lemma applyBufferedInput_fields (sq : ℚ → ℚ) (c : ℚ → ℚ → Bool) (now : ℚ)
    (p : Player) :
    (applyBufferedInput sq c now p).id = p.id ∧
    (applyBufferedInput sq c now p).connected = p.connected ∧
    (applyBufferedInput sq c now p).hugging = p.hugging ∧
    (applyBufferedInput sq c now p).hugEndTime = p.hugEndTime ∧
    (applyBufferedInput sq c now p).sitting = p.sitting ∧
    p.lastInputSeq ≤ (applyBufferedInput sq c now p).lastInputSeq := by
  unfold applyBufferedInput
  split
  · split
    · exact ⟨rfl, rfl, rfl, rfl, rfl, le_refl _⟩
    · cases hinp : p.lastInput with
      | none => exact ⟨rfl, rfl, rfl, rfl, rfl, le_refl _⟩
      | some inp =>
          obtain ⟨h1, h2, h3, h4, h5, _, h7⟩ := processPlayerInput_fields sq c now p inp
          exact ⟨h1, h2, h3, h4, h5, h7 ▸ le_max_left _ _⟩
  · exact ⟨rfl, rfl, rfl, rfl, rfl, le_refl _⟩

lemma tickPlayerStep_id (sq : ℚ → ℚ) (c : ℚ → ℚ → Bool) (now : ℚ) (p : Player) :
    (tickPlayerStep sq c now p).id = p.id := by
  unfold tickPlayerStep
  exact (applyBufferedInput_fields sq c now (expireHug now p)).1.trans
    (expireHug_fields now p).1

lemma eq_of_mem_of_nodup_ids (l : List Player)
    (hnd : (l.map Player.id).Nodup) (q r : Player)
    (hq : q ∈ l) (hr : r ∈ l) (h : q.id = r.id) : q = r :=
  List.inj_on_of_nodup_map hnd hq hr h

lemma find?_eq_self_of_mem (l : List Player)
    (hnd : (l.map Player.id).Nodup) (p : Player) (hp : p ∈ l) :
    l.find? (fun q => q.id = p.id) = some p := by
  cases hfind : l.find? (fun q => q.id = p.id) with
  | none =>
      exfalso
      have := List.find?_eq_none.mp hfind p hp
      simp at this
  | some q =>
      have hmem := List.mem_of_find?_eq_some hfind
      have hid : (q.id = p.id) := by
        have := List.find?_some hfind
        simpa using this
      rw [eq_of_mem_of_nodup_ids l hnd q p hmem hp hid]

lemma find?_map_of_id_preserving (l : List Player) (f : Player → Player)
    (hf : ∀ q, (f q).id = q.id) (x : String) :
    (l.map f).find? (fun q => q.id = x) = (l.find? (fun q => q.id = x)).map f := by
  induction l with
  | nil => rfl
  | cons a l ih =>
      by_cases ha : a.id = x
      · rw [List.map_cons, List.find?_cons_of_pos, List.find?_cons_of_pos] <;>
          simp [hf, ha]
      · rw [List.map_cons, List.find?_cons_of_neg, List.find?_cons_of_neg, ih] <;>
          simp [hf, ha]

/-- Updating the single entry with a given id raises a Boolean count by at
most one. -/
lemma countP_update_le (P : Player → Bool) (x : String) (p2 : Player)
    (l : List Player) (hnd : (l.map Player.id).Nodup) :
    (l.map (fun q => if q.id = x then p2 else q)).countP P ≤ l.countP P + 1 := by
  induction l with
  | nil => simp
  | cons a l ih =>
      simp only [List.map_cons, List.countP_cons]
      by_cases ha : a.id = x
      · have htail : ∀ q ∈ l, q.id ≠ x := by
          intro q hq hqx
          have : a.id ∈ l.map Player.id := by
            rw [ha, ← hqx]; exact List.mem_map_of_mem Player.id hq
          exact (List.nodup_cons.mp (by simpa using hnd)).1 this
        have hmapid : l.map (fun q => if q.id = x then p2 else q) = l.map id :=
          List.map_congr_left (fun q hq => by simp [htail q hq])
        rw [if_pos ha, hmapid, List.map_id]
        have h1 : (if P p2 then 1 else 0) ≤ 1 := by split <;> omega
        have h2 : (0:ℕ) ≤ (if P a then 1 else 0) := by omega
        omega
      · rw [if_neg ha]
        have := ih (by simpa using (List.nodup_cons.mp (by simpa using hnd)).2)
        omega

lemma count_filterMap_event (l : List Player) (f : Player → Option Event)
    (e : Event) :
    (l.filterMap f).count e = l.countP (fun p => f p == some e) := by
  induction l with
  | nil => rfl
  | cons a l ih =>
      simp only [List.filterMap_cons, List.countP_cons]
      cases hfa : f a with
      | none =>
          simp only [List.countP_cons] at *
          have : (f a == some e) = false := by simp [hfa]
          rw [ih]
          simp [this]
      | some ev =>
          by_cases hev : ev = e
          · subst hev
            rw [List.count_cons]
            simp [ih, hfa]
          · rw [List.count_cons]
            simp [ih, hfa, hev]

lemma countP_eq_one_of_unique (l : List Player)
    (hnd : (l.map Player.id).Nodup) (x : String) (P : Player → Bool)
    (hP : ∀ q ∈ l, P q = true → q.id = x)
    (p : Player) (hp : p ∈ l) (hpx : p.id = x) (hPp : P p = true) :
    l.countP P = 1 := by
  induction l with
  | nil => cases hp
  | cons a l ih =>
      have hnd2 : (l.map Player.id).Nodup :=
        (List.nodup_cons.mp (by simpa using hnd)).2
      have hax : a.id ∉ l.map Player.id :=
        (List.nodup_cons.mp (by simpa using hnd)).1
      rw [List.countP_cons]
      rcases List.mem_cons.mp hp with hpa | hpl
      · subst hpa
        have : l.countP P = 0 := by
          rw [List.countP_eq_zero]
          intro q hq
          intro hPq
          exact hax (hpx ▸ hP q (List.mem_cons_of_mem _ hq) hPq ▸
            List.mem_map_of_mem Player.id hq)
        rw [this, hPp]
        simp
      · have ha : P a = false := by
          by_contra hPa
          have hPa2 : P a = true := by
            cases hv : P a
            · exact absurd hv hPa
            · rfl
          have haxx : a.id = x := hP a (List.mem_cons_self _ _) hPa2
          exact hax (haxx ▸ hpx ▸ List.mem_map_of_mem Player.id hpl)
        rw [ih hnd2 (fun q hq => hP q (List.mem_cons_of_mem _ hq)) hpl, ha]
        simp

/-! ## Concrete artifacts used by several statements -/

def keysRight : Keys := { right := true }

def keysDown : Keys := { down := true }

def rightPacket : InputPacket := { keys := keysRight, seq := 0 }

def downPacket : InputPacket := { keys := keysDown, seq := 0 }

/-- An oracle that obstructs nothing: the no-obstruction hypothesis of the
C6 scenario and a convenient instantiation of the universally quantified
oracle in witnesses.  (The freshly initialised world's oracle is
`initialCollide`, which keeps the static bench rectangle.) -/
def noCollide : ℚ → ℚ → Bool := fun _ _ => false

def sqId : ℚ → ℚ := fun q => q

/-! ## Spec-shaped axis resolution (for C6) -/

/-- Destination of the X-only move. -/
def intendedX (sq : ℚ → ℚ) (p : Player) (inp : InputPacket) : ℚ :=
  p.x + (inputVelocity sq inp.keys).1 * (TICK_INTERVAL / 1000)

/-- Destination of the Y-only move. -/
def intendedY (sq : ℚ → ℚ) (p : Player) (inp : InputPacket) : ℚ :=
  p.y + (inputVelocity sq inp.keys).2 * (TICK_INTERVAL / 1000)

/-- X after the first axis test: committed exactly when moving and the
oracle allows the X-shifted destination. -/
def resolvedX (sq : ℚ → ℚ) (c : ℚ → ℚ → Bool) (p : Player) (inp : InputPacket) : ℚ :=
  if (inputVelocity sq inp.keys).1 ≠ 0 ∧ canMoveTo c (intendedX sq p inp) p.y = true
  then intendedX sq p inp else p.x

/-- Y after the second axis test, performed at the (possibly updated) X. -/
def resolvedY (sq : ℚ → ℚ) (c : ℚ → ℚ → Bool) (p : Player) (inp : InputPacket) : ℚ :=
  if (inputVelocity sq inp.keys).2 ≠ 0 ∧
     canMoveTo c (resolvedX sq c p inp) (intendedY sq p inp) = true
  then intendedY sq p inp else p.y

lemma processPlayerInput_eq_axisResolved (sq : ℚ → ℚ) (c : ℚ → ℚ → Bool)
    (now : ℚ) (p : Player) (inp : InputPacket) :
    processPlayerInput sq c now p inp = { p with
      x := max 0 (min WORLD_WIDTH (resolvedX sq c p inp))
      y := max 0 (min WORLD_HEIGHT (resolvedY sq c p inp))
      vx := if (inputVelocity sq inp.keys).1 ≠ 0 ∧
               ¬(canMoveTo c (intendedX sq p inp) p.y = true) then 0
            else (inputVelocity sq inp.keys).1
      vy := if (inputVelocity sq inp.keys).2 ≠ 0 ∧
               ¬(canMoveTo c (resolvedX sq c p inp) (intendedY sq p inp) = true) then 0
            else (inputVelocity sq inp.keys).2
      lastInputSeq := max p.lastInputSeq inp.seq
      lastUpdate := now } := rfl

/-! ## C1 -/

lemma processPlayerInput_inWorldBounds (sq : ℚ → ℚ) (c : ℚ → ℚ → Bool)
    (now : ℚ) (p : Player) (inp : InputPacket) :
    inWorldBounds (processPlayerInput sq c now p inp) := by
  refine ⟨le_max_left _ _, ?_, le_max_left _ _, ?_⟩
  · exact max_le (by norm_num [WORLD_WIDTH]) (min_le_left _ _)
  · exact max_le (by norm_num [WORLD_HEIGHT]) (min_le_left _ _)

lemma tickPlayerStep_inWorldBounds (sq : ℚ → ℚ) (c : ℚ → ℚ → Bool) (now : ℚ)
    (p : Player) (h : inWorldBounds p) :
    inWorldBounds (tickPlayerStep sq c now p) := by
  have hex : inWorldBounds (expireHug now p) := by
    obtain ⟨-, -, -, hx, hy, -, -⟩ := expireHug_fields now p
    exact ⟨hx ▸ h.1, hx ▸ h.2.1, hy ▸ h.2.2.1, hy ▸ h.2.2.2⟩
  unfold tickPlayerStep applyBufferedInput
  split
  · split
    · exact hex
    · split
      · exact processPlayerInput_inWorldBounds _ _ _ _ _
      · exact hex
  · exact hex

/-- C1: after any tick every occupant position lies in
`[0, worldWidth] × [0, worldHeight]` with `worldWidth = 240·16`,
`worldHeight = 180·16` (given that occupants not moved by the input step
already were in bounds), and the input-driven movement step clamps the
position to world bounds unconditionally — for every input, every collision
oracle and every occupant. -/
theorem tick_positions_clamped_to_world (sq : ℚ → ℚ) (c : ℚ → ℚ → Bool)
    (now : ℚ) (st : GameState) (h : ∀ p ∈ st.players, inWorldBounds p) :
    (∀ (p : Player) (inp : InputPacket),
        inWorldBounds (processPlayerInput sq c now p inp)) ∧
    (∀ p2 ∈ (gameTick sq c now st).1.players, inWorldBounds p2) := by
  constructor
  · exact fun p inp => processPlayerInput_inWorldBounds sq c now p inp
  · intro p2 hp2
    have : (gameTick sq c now st).1.players = st.players.map (tickPlayerStep sq c now) := rfl
    rw [this] at hp2
    obtain ⟨p, hp, rfl⟩ := List.mem_map.mp hp2
    exact tickPlayerStep_inWorldBounds sq c now p (h p hp)

/-- Witness for C1 at a concrete out-of-the-box state and input. -/
theorem tick_positions_clamped_to_world_witness :
    inWorldBounds (processPlayerInput sqId noCollide 0
      (createPlayerState "p1" "P" "1" 0) rightPacket) :=
  (tick_positions_clamped_to_world sqId noCollide 0 (createGameState 0)
    (by intro p hp; cases hp)).1 (createPlayerState "p1" "P" "1" 0) rightPacket

/-! ## C6 -/

/-- C6: the buffered-input step resolves motion by axis separation — the
X-shifted destination is tested first and committed iff unobstructed (else
the X velocity is zeroed for the tick), then the Y move is tested at the
possibly-updated X (else the Y velocity is zeroed) — and in the concrete
scenario an occupant at (100,100) holding right for one 50 ms tick at
125 px/s with no obstruction ends at x = 106.25, y = 100. -/
theorem input_resolved_by_axis_separation (sq : ℚ → ℚ) (c : ℚ → ℚ → Bool)
    (now : ℚ) (p : Player) (inp : InputPacket) :
    ((processPlayerInput sq c now p inp).x =
        max 0 (min WORLD_WIDTH (resolvedX sq c p inp))) ∧
    ((processPlayerInput sq c now p inp).y =
        max 0 (min WORLD_HEIGHT (resolvedY sq c p inp))) ∧
    ((processPlayerInput sq c now p inp).vx =
        if (inputVelocity sq inp.keys).1 ≠ 0 ∧
           ¬(canMoveTo c (intendedX sq p inp) p.y = true) then 0
        else (inputVelocity sq inp.keys).1) ∧
    ((processPlayerInput sq c now p inp).vy =
        if (inputVelocity sq inp.keys).2 ≠ 0 ∧
           ¬(canMoveTo c (resolvedX sq c p inp) (intendedY sq p inp) = true) then 0
        else (inputVelocity sq inp.keys).2) ∧
    ((processPlayerInput sq noCollide now
        { createPlayerState "p1" "Player" "1" 0 with x := 100, y := 100 }
        { keys := keysRight, seq := 1 }).x = 106.25) ∧
    ((processPlayerInput sq noCollide now
        { createPlayerState "p1" "Player" "1" 0 with x := 100, y := 100 }
        { keys := keysRight, seq := 1 }).y = 100) := by
  refine ⟨rfl, rfl, rfl, rfl, ?_, ?_⟩
  · rw [processPlayerInput_eq_axisResolved]
    have hv : inputVelocity sq keysRight = (125, 0) := by
      simp [inputVelocity, keysRight, PLAYER_SPEED]
    simp [resolvedX, intendedX, hv, canMoveTo, noCollide, createPlayerState,
      TICK_INTERVAL, WORLD_WIDTH]
    norm_num
  · rw [processPlayerInput_eq_axisResolved]
    have hv : inputVelocity sq keysRight = (125, 0) := by
      simp [inputVelocity, keysRight, PLAYER_SPEED]
    simp [resolvedY, resolvedX, intendedX, intendedY, hv, canMoveTo, noCollide,
      createPlayerState, TICK_INTERVAL, WORLD_HEIGHT]
    norm_num

/-! ## C10 -/

lemma tickPlayerStep_not_connected (sq : ℚ → ℚ) (c : ℚ → ℚ → Bool)
    (now : ℚ) (p : Player) (hp : p.connected = false) :
    tickPlayerStep sq c now p = p := by
  have hex : expireHug now p = p := by
    unfold expireHug
    rw [if_neg]
    intro hcond
    rw [hp] at hcond
    exact Bool.false_ne_true hcond.1
  unfold tickPlayerStep
  rw [hex]
  unfold applyBufferedInput
  rw [if_neg]
  intro hcond
  rw [hp] at hcond
  exact Bool.false_ne_true hcond

/-- C10: a tick never touches a disconnected occupant — its record (in
particular `hugging` and `hugEndTime`) is unchanged even when the embrace
end-time has passed, and every hug_ended event emitted by a tick names a
connected (and hugging) occupant. -/
theorem tick_skips_disconnected_occupants (sq : ℚ → ℚ) (c : ℚ → ℚ → Bool)
    (now : ℚ) (st : GameState) :
    ((gameTick sq c now st).1.players = st.players.map (tickPlayerStep sq c now)) ∧
    (∀ p : Player, p.connected = false → tickPlayerStep sq c now p = p) ∧
    (∀ pid : String, Event.hugEnded pid ∈ (gameTick sq c now st).2 →
        ∃ p ∈ st.players, p.id = pid ∧ p.connected = true ∧ p.hugging = true) := by
  refine ⟨rfl, ?_, ?_⟩
  · exact fun p hp => tickPlayerStep_not_connected sq c now p hp
  · intro pid hmem
    have : (gameTick sq c now st).2 =
        st.players.filterMap (expireHugEvent now) ++ [Event.stateUpdate] := rfl
    rw [this] at hmem
    rcases List.mem_append.mp hmem with hmem2 | hmem2
    · obtain ⟨p, hp, hev⟩ := List.mem_filterMap.mp hmem2
      unfold expireHugEvent at hev
      by_cases hcond : p.connected = true ∧ p.hugging = true ∧
          p.hugEndTime > 0 ∧ now ≥ p.hugEndTime
      · rw [if_pos hcond] at hev
        have hid : p.id = pid := by
          injection hev with hev2
          injection hev2
        exact ⟨p, hp, hid, hcond.1, hcond.2.1⟩
      · rw [if_neg hcond] at hev
        cases hev
    · simp at hmem2

/-- Witness for C10: a concrete disconnected occupant whose embrace time is
long past is untouched by the tick step. -/
theorem tick_skips_disconnected_occupants_witness :
    tickPlayerStep sqId noCollide 1000000
      { createPlayerState "p1" "P" "1" 0 with
          connected := false, hugging := true, hugEndTime := 5 } =
      { createPlayerState "p1" "P" "1" 0 with
          connected := false, hugging := true, hugEndTime := 5 } :=
  (tick_skips_disconnected_occupants sqId noCollide 1000000
    (createGameState 0)).2.1
    { createPlayerState "p1" "P" "1" 0 with
        connected := false, hugging := true, hugEndTime := 5 } rfl

/-! ## C8 -/

/-- C8: receiving an input packet from a connected, authenticated occupant
unconditionally replaces the buffered packet and touches no sequence
number; the per-tick input step records the packet sequence as
`max lastInputSeq seq`; and the per-tick step never decreases
`lastInputSeq` — so the last-acknowledged sequence is a monotone max across
any interleaving of packet receipts and ticks. -/
theorem input_seq_monotone_max (cl : Client) (st : GameState)
    (input : InputPacket) (pid : String) (player : Player)
    (hcl : cl.playerId = some pid)
    (hnd : (st.players.map Player.id).Nodup)
    (hfind : st.players.find? (fun p => p.id = pid) = some player)
    (hconn : player.connected = true) :
    (handleInput cl input st =
      ({ st with players :=
          setPlayer st.players { player with lastInput := some input } }, [])) ∧
    (∀ q ∈ st.players, ∃ q2 ∈ (handleInput cl input st).1.players,
        q2.id = q.id ∧ q2.lastInputSeq = q.lastInputSeq) ∧
    (∀ (sq : ℚ → ℚ) (c : ℚ → ℚ → Bool) (now : ℚ) (p : Player) (inp : InputPacket),
        (processPlayerInput sq c now p inp).lastInputSeq = max p.lastInputSeq inp.seq) ∧
    (∀ (sq : ℚ → ℚ) (c : ℚ → ℚ → Bool) (now : ℚ) (p : Player),
        p.lastInputSeq ≤ (tickPlayerStep sq c now p).lastInputSeq) := by
  have hres : handleInput cl input st =
      ({ st with players :=
          setPlayer st.players { player with lastInput := some input } }, []) := by
    unfold handleInput
    simp only [hcl, hfind, hconn, if_true]
  refine ⟨hres, ?_, fun _ _ _ _ _ => rfl, ?_⟩
  · intro q hq
    rw [hres]
    have hpid : player.id = pid := by simpa using List.find?_some hfind
    have hpm : player ∈ st.players := List.mem_of_find?_eq_some hfind
    have hany : st.players.any
        (fun q2 => q2.id = ({ player with lastInput := some input } : Player).id) = true := by
      rw [List.any_eq_true]
      exact ⟨player, hpm, by simp⟩
    by_cases hid : q.id = pid
    · have hqp : q = player :=
        eq_of_mem_of_nodup_ids st.players hnd q player hq hpm (hid.trans hpid.symm)
      refine ⟨{ player with lastInput := some input }, ?_, by simp [hqp, hpid], by simp [hqp]⟩
      show _ ∈ setPlayer st.players { player with lastInput := some input }
      unfold setPlayer
      rw [if_pos hany]
      exact List.mem_map.mpr ⟨q, hq, by simp [hqp, hpid]⟩
    · refine ⟨q, ?_, rfl, rfl⟩
      show _ ∈ setPlayer st.players { player with lastInput := some input }
      unfold setPlayer
      rw [if_pos hany]
      exact List.mem_map.mpr ⟨q, hq, by simp [hid, hpid]⟩
  · intro sq c now p
    unfold tickPlayerStep
    have h1 := (applyBufferedInput_fields sq c now (expireHug now p)).2.2.2.2.2
    have h2 := (expireHug_fields now p).2.2.2.2.2.2
    rw [h2] at h1
    exact h1

/-- Witness for C8 at a concrete one-occupant state. -/
theorem input_seq_monotone_max_witness :
    handleInput { playerId := some "p1" } rightPacket
      { players := [createPlayerState "p1" "P" "1" 0], objects := [],
        tick := 0, lastTick := 0 } =
      ({ players := [{ createPlayerState "p1" "P" "1" 0 with
            lastInput := some rightPacket }], objects := [],
          tick := 0, lastTick := 0 }, []) := by
  have h := (input_seq_monotone_max { playerId := some "p1" }
    { players := [createPlayerState "p1" "P" "1" 0], objects := [],
      tick := 0, lastTick := 0 }
    rightPacket "p1" (createPlayerState "p1" "P" "1" 0)
    rfl (by simp [createPlayerState]) (by simp [createPlayerState]) rfl).1
  rw [h]
  simp [setPlayer, createPlayerState]

/-! ## setPlayer lookup lemmas -/

lemma find?_map_update_self (l : List Player) (p : Player)
    (hany : l.any (fun q => q.id = p.id) = true) :
    (l.map (fun q => if q.id = p.id then p else q)).find?
      (fun q => q.id = p.id) = some p := by
  induction l with
  | nil => simp at hany
  | cons a l ih =>
      by_cases ha : a.id = p.id
      · rw [List.map_cons, if_pos ha, List.find?_cons_of_pos _ (by simp)]
      · rw [List.map_cons, if_neg ha, List.find?_cons_of_neg _ (by simp [ha])]
        apply ih
        simp only [List.any_cons, Bool.or_eq_true, decide_eq_true_eq] at hany
        rcases hany with h | h
        · exact absurd h ha
        · exact h

lemma find?_setPlayer_self (l : List Player) (p : Player) :
    (setPlayer l p).find? (fun q => q.id = p.id) = some p := by
  unfold setPlayer
  by_cases hany : l.any (fun q => q.id = p.id) = true
  · rw [if_pos hany]
    exact find?_map_update_self l p hany
  · rw [if_neg hany, List.find?_append]
    have hnone : l.find? (fun q => q.id = p.id) = none := by
      rw [List.find?_eq_none]
      intro q hq hqp
      exact hany (List.any_eq_true.mpr ⟨q, hq, hqp⟩)
    rw [hnone]
    simp

lemma connectedCount_eq_countP (st : GameState) :
    connectedCount st = st.players.countP (fun p => p.connected) := by
  unfold connectedCount
  rw [List.countP_eq_length_filter]

/-! ## C2 -/

/-- C2: a join while two occupants are connected returns the capacity error
and mutates nothing (state and client binding unchanged, connection not
closed); joins never push the connected count above 2; and once a slot is
free a join succeeds, emitting welcome and binding the connection to a
connected occupant. -/
theorem join_capacity_two (now : ℚ) (freshId : String) (cl : Client)
    (name character dataPlayerId : Option String) (st : GameState)
    (hnd : (st.players.map Player.id).Nodup) :
    (connectedCount st ≥ 2 →
      handleJoin now freshId cl name character dataPlayerId st =
        (st, cl, [Event.error "Room is full. Maximum 2 players allowed."])) ∧
    (connectedCount st ≤ 2 →
      connectedCount (handleJoin now freshId cl name character dataPlayerId st).1 ≤ 2) ∧
    (connectedCount st < 2 →
      ∃ pl : Player,
        (handleJoin now freshId cl name character dataPlayerId st).2.1 =
          { playerId := some pl.id } ∧
        (handleJoin now freshId cl name character dataPlayerId st).2.2 =
          [Event.welcome pl.id, Event.playerJoined pl.id] ∧
        (handleJoin now freshId cl name character dataPlayerId st).1.players.find?
          (fun p => p.id = pl.id) = some pl ∧
        pl.connected = true) := by
  have hfull : connectedCount st ≥ 2 →
      handleJoin now freshId cl name character dataPlayerId st =
        (st, cl, [Event.error "Room is full. Maximum 2 players allowed."]) := by
    intro h
    unfold handleJoin
    rw [if_pos]
    exact h
  refine ⟨hfull, ?_, ?_⟩
  · intro hle
    by_cases hge : connectedCount st ≥ 2
    · rw [hfull hge]
      exact hle
    · have hlt : connectedCount st < 2 := by omega
      have hge2 : ¬ connectedCount st ≥ MAX_PLAYERS := hge
      cases hfind : st.players.find?
          (fun p => p.id = joinPlayerId freshId dataPlayerId st) with
      | none =>
          have hstep : handleJoin now freshId cl name character dataPlayerId st =
              ({ st with
                     players := setPlayer st.players
                       (newJoinPlayer now name character
                    (joinPlayerId freshId dataPlayerId st) st) },
               { playerId := some (joinPlayerId freshId dataPlayerId st) },
               [Event.welcome (joinPlayerId freshId dataPlayerId st),
                Event.playerJoined (joinPlayerId freshId dataPlayerId st)]) := by
            unfold handleJoin
            rw [if_neg hge2, hfind]
          rw [hstep]
          have hany : st.players.any (fun q =>
              q.id = (newJoinPlayer now name character
                (joinPlayerId freshId dataPlayerId st) st).id) = false := by
            rw [List.any_eq_false]
            intro q hq hqp
            have h2 := List.find?_eq_none.mp hfind q hq
            simp only [decide_eq_true_eq] at h2 hqp
            exact h2 hqp
          show connectedCount { st with players := setPlayer st.players _ } ≤ 2
          unfold setPlayer
          rw [if_neg (by rw [hany]; simp)]
          rw [connectedCount_eq_countP] at hlt ⊢
          simp only [List.countP_append]
          have hone : List.countP (fun p => p.connected)
              [newJoinPlayer now name character
                (joinPlayerId freshId dataPlayerId st) st] ≤ 1 := by
            simp only [List.countP_cons, List.countP_nil]
            split <;> omega
          omega
      | some player =>
          have hmem : player ∈ st.players := List.mem_of_find?_eq_some hfind
          have hstep : handleJoin now freshId cl name character dataPlayerId st =
              ({ st with
                     players := setPlayer st.players
                       (rejoinPlayer name character player) },
               { playerId := some (joinPlayerId freshId dataPlayerId st) },
               [Event.welcome (joinPlayerId freshId dataPlayerId st),
                Event.playerJoined (joinPlayerId freshId dataPlayerId st)]) := by
            unfold handleJoin
            rw [if_neg hge2, hfind]
          rw [hstep]
          have hany : st.players.any (fun q =>
              q.id = (rejoinPlayer name character player).id) = true := by
            rw [List.any_eq_true]
            exact ⟨player, hmem, by simp [rejoinPlayer]⟩
          show connectedCount { st with players := setPlayer st.players _ } ≤ 2
          unfold setPlayer
          rw [if_pos hany]
          rw [connectedCount_eq_countP] at hlt ⊢
          calc List.countP (fun p => p.connected) _ ≤
              List.countP (fun p => p.connected) st.players + 1 :=
                countP_update_le _ _ _ st.players hnd
            _ ≤ 2 := by omega
  · intro hlt
    have hge2 : ¬ connectedCount st ≥ MAX_PLAYERS := by
      simp only [MAX_PLAYERS]
      omega
    cases hfind : st.players.find?
        (fun p => p.id = joinPlayerId freshId dataPlayerId st) with
    | none =>
        have hstep : handleJoin now freshId cl name character dataPlayerId st =
            ({ st with
                   players := setPlayer st.players
                     (newJoinPlayer now name character
                  (joinPlayerId freshId dataPlayerId st) st) },
             { playerId := some (joinPlayerId freshId dataPlayerId st) },
             [Event.welcome (joinPlayerId freshId dataPlayerId st),
              Event.playerJoined (joinPlayerId freshId dataPlayerId st)]) := by
          unfold handleJoin
          rw [if_neg hge2, hfind]
        refine ⟨newJoinPlayer now name character
          (joinPlayerId freshId dataPlayerId st) st, ?_, ?_, ?_, rfl⟩
        · rw [hstep, newJoinPlayer_id]
        · rw [hstep, newJoinPlayer_id]
        · rw [hstep]
          exact find?_setPlayer_self st.players _
    | some player =>
        have hpid : player.id = joinPlayerId freshId dataPlayerId st := by
          simpa using List.find?_some hfind
        have hstep : handleJoin now freshId cl name character dataPlayerId st =
            ({ st with
                   players := setPlayer st.players
                     (rejoinPlayer name character player) },
             { playerId := some (joinPlayerId freshId dataPlayerId st) },
             [Event.welcome (joinPlayerId freshId dataPlayerId st),
              Event.playerJoined (joinPlayerId freshId dataPlayerId st)]) := by
          unfold handleJoin
          rw [if_neg hge2, hfind]
        refine ⟨rejoinPlayer name character player, ?_, ?_, ?_, rfl⟩
        · rw [hstep, rejoinPlayer_id, hpid]
        · rw [hstep, rejoinPlayer_id, hpid]
        · rw [hstep]
          exact find?_setPlayer_self st.players _

/-- Witness for C2: a third join into a two-occupant room is refused without
mutation. -/
theorem join_capacity_two_witness :
    handleJoin 0 "p3" { playerId := none } (some "C") none none
      { players := [createPlayerState "p1" "A" "1" 0, createPlayerState "p2" "B" "1" 0],
        objects := [], tick := 0, lastTick := 0 } =
      ({ players := [createPlayerState "p1" "A" "1" 0, createPlayerState "p2" "B" "1" 0],
         objects := [], tick := 0, lastTick := 0 }, { playerId := none },
       [Event.error "Room is full. Maximum 2 players allowed."]) :=
  (join_capacity_two 0 "p3" { playerId := none } (some "C") none none
    { players := [createPlayerState "p1" "A" "1" 0, createPlayerState "p2" "B" "1" 0],
      objects := [], tick := 0, lastTick := 0 }
    (by simp [createPlayerState])).1 (by simp [connectedCount, createPlayerState])

/-! ## C9 -/

/-- C9: a join carrying an unknown client-supplied playerId never adopts it —
the occupant is created under the freshly generated identifier, is appended
to the registry, the connection is bound to the fresh id, and the
client-supplied id still does not occur in the registry. -/
theorem join_ignores_unknown_client_id (now : ℚ) (freshId : String)
    (cl : Client) (name character dataPlayerId : Option String) (st : GameState)
    (hcap : connectedCount st < 2)
    (hpid : ∀ pid, dataPlayerId = some pid → ∀ p ∈ st.players, p.id ≠ pid)
    (hfresh : ∀ p ∈ st.players, p.id ≠ freshId) :
    ∃ pl : Player,
      (handleJoin now freshId cl name character dataPlayerId st).1.players =
        st.players ++ [pl] ∧
      pl.id = freshId ∧
      (handleJoin now freshId cl name character dataPlayerId st).2.1 =
        { playerId := some freshId } ∧
      (∀ pid, dataPlayerId = some pid → pid ≠ freshId →
        ∀ p ∈ (handleJoin now freshId cl name character dataPlayerId st).1.players,
          p.id ≠ pid) := by
  have hjid : joinPlayerId freshId dataPlayerId st = freshId := by
    cases dataPlayerId with
    | none => rfl
    | some pid =>
        show (if st.players.any (fun p => p.id = pid) = true then pid else freshId) = freshId
        rw [if_neg]
        intro hany
        obtain ⟨q, hq, hqp⟩ := List.any_eq_true.mp hany
        exact hpid pid rfl q hq (by simpa using hqp)
  have hge2 : ¬ connectedCount st ≥ MAX_PLAYERS := by
    simp only [MAX_PLAYERS]
    omega
  have hfind : st.players.find? (fun p => p.id = freshId) = none := by
    rw [List.find?_eq_none]
    intro q hq
    simpa using hfresh q hq
  have happend : st.players.any (fun q =>
      q.id = (newJoinPlayer now name character freshId st).id) = false := by
    rw [List.any_eq_false]
    intro q hq hqp
    exact hfresh q hq (by simpa [newJoinPlayer, createPlayerState] using hqp)
  have hsetp : setPlayer st.players (newJoinPlayer now name character freshId st) =
      st.players ++ [newJoinPlayer now name character freshId st] := by
    unfold setPlayer
    rw [if_neg (by rw [happend]; simp)]
  have hstep : handleJoin now freshId cl name character dataPlayerId st =
      ({ st with
             players := setPlayer st.players
               (newJoinPlayer now name character freshId st) },
       { playerId := some freshId },
       [Event.welcome freshId, Event.playerJoined freshId]) := by
    unfold handleJoin
    rw [if_neg hge2, hjid, hfind]
  refine ⟨newJoinPlayer now name character freshId st, ?_, rfl, ?_, ?_⟩
  · rw [hstep]
    exact hsetp
  · rw [hstep]
  · intro pid hdp hne p hp
    rw [hstep] at hp
    show p.id ≠ pid
    have hp2 : p ∈ st.players ++ [newJoinPlayer now name character freshId st] := by
      rw [← hsetp]
      exact hp
    rcases List.mem_append.mp hp2 with hin | hin
    · exact hpid pid hdp p hin
    · have hpfresh : p.id = freshId := by
        rcases List.mem_singleton.mp hin with rfl
        rfl
      rw [hpfresh]
      exact fun h => hne h.symm

/-- Witness for C9: an unknown supplied id is replaced by the generated one
in the connection binding. -/
theorem join_ignores_unknown_client_id_witness :
    (handleJoin 0 "fid" { playerId := none } none none (some "stolen")
      (createGameState 0)).2.1 = { playerId := some "fid" } := by
  obtain ⟨pl, h1, h2, h3, h4⟩ := join_ignores_unknown_client_id 0 "fid"
    { playerId := none } none none (some "stolen") (createGameState 0)
    (by simp [connectedCount, createGameState])
    (by intro pid hpid p hp; cases hp)
    (by intro p hp; cases hp)
  exact h3

/-! ## C7 -/

/-- C7: placing a display object whose bounding rectangle overlaps an
existing object is a silent no-op — the object registry (and hence the
object-derived obstacle set) and all other state are unchanged and no event
(neither an error nor object_placed) is emitted; dually, a successful
placement overlaps no pre-existing object, so rectangles never overlap at
creation time. -/
theorem object_overlap_rejected_silently (now : ℚ) (freshId : String)
    (cl : Client) (raw : RawObjectData) (st : GameState) (pid : String)
    (obj : DisplayObject)
    (hcl : cl.playerId = some pid)
    (hnorm : normalizeObjectData freshId now raw = some obj)
    (hbounds : ¬(obj.x < 0 ∨ obj.x > WORLD_WIDTH ∨ obj.y < 0 ∨ obj.y > WORLD_HEIGHT)) :
    (st.objects.any (fun existing => objectsOverlap existing obj) = true →
      handlePlaceObject now freshId cl raw st = (st, [])) ∧
    (st.objects.any (fun existing => objectsOverlap existing obj) = false →
      handlePlaceObject now freshId cl raw st =
        ({ st with objects := setObject st.objects obj },
         [Event.objectPlaced obj.id]) ∧
      ∀ e ∈ st.objects, objectsOverlap e obj = false) := by
  constructor
  · intro hover
    unfold handlePlaceObject
    rw [hcl, hnorm]
    simp only []
    rw [if_neg hbounds, if_pos hover]
  · intro hover
    constructor
    · unfold handlePlaceObject
      rw [hcl, hnorm]
      simp only []
      rw [if_neg hbounds, if_neg (by simp [hover])]
    · intro e he
      exact Bool.eq_false_iff.mpr (List.any_eq_false.mp hover e he)

/-- Concrete placement request overlapping an existing object (for the C7
witness). -/
def existingObject : DisplayObject :=
  { id := "o1", x := 100, y := 100, width := 48, height := 72,
    imageSrc := "", text := "", createdAt := 0, updatedAt := 0 }

def overlapRaw : RawObjectData :=
  { x := some 110, y := some 100, col := none, row := none,
    imageSrc := none, text := none, width := none, height := none }

def overlapState : GameState :=
  { players := [], objects := [existingObject], tick := 0, lastTick := 0 }

/-- Witness for C7: the overlapping placement is silently rejected. -/
theorem object_overlap_rejected_silently_witness :
    handlePlaceObject 0 "o2" { playerId := some "p1" } overlapRaw overlapState =
      (overlapState, []) :=
  (object_overlap_rejected_silently 0 "o2" { playerId := some "p1" }
    overlapRaw overlapState "p1"
    { id := "o2", x := 110, y := 100, width := 48, height := 72,
      imageSrc := "", text := "", createdAt := 0, updatedAt := 0 }
    rfl rfl (by norm_num [WORLD_WIDTH, WORLD_HEIGHT])).1
    (by simp [overlapState, existingObject, objectsOverlap, getObjectBounds]
        norm_num)

/-! ## C3 -/

/-- C3: with A and B the two connected occupants, neither embracing and
within the proximity threshold, a hug request from A gives both occupants
the identical `embraceEndsAt = now + duration`, averages their Y, zeroes
their velocities and broadcasts exactly one embrace-started event; a tick
run at any time past `embraceEndsAt` returns both to `embracing = false`
and emits exactly one hug_ended event per occupant. -/
theorem hug_lifecycle (sq : ℚ → ℚ) (c : ℚ → ℚ → Bool) (now now2 : ℚ)
    (cl : Client) (st : GameState) (a b : Player)
    (hcl : cl.playerId = some a.id)
    (hnd : (st.players.map Player.id).Nodup)
    (hfindA : st.players.find? (fun p => p.id = a.id) = some a)
    (haC : a.connected = true)
    (haH : a.hugging = false)
    (hothers : st.players.filter (fun p => p.connected && !(p.id = a.id : Bool)) = [b])
    (hbH : b.hugging = false)
    (hdist : (a.x - b.x) * (a.x - b.x) + (a.y - b.y) * (a.y - b.y) ≤
      HUG_PROXIMITY_THRESHOLD * HUG_PROXIMITY_THRESHOLD)
    (hexp : now + HUG_DURATION ≤ now2)
    (hpos : 0 < now + HUG_DURATION) :
    (handleHug now cl st).2 = [Event.hugStarted a.id b.id] ∧
    (handleHug now cl st).1.players.find? (fun p => p.id = a.id) =
      some (hugUpdate ((a.y + b.y) / 2) (now + HUG_DURATION) a) ∧
    (handleHug now cl st).1.players.find? (fun p => p.id = b.id) =
      some (hugUpdate ((a.y + b.y) / 2) (now + HUG_DURATION) b) ∧
    ((gameTick sq c now2 (handleHug now cl st).1).1.players.find?
        (fun p => p.id = a.id)).map Player.hugging = some false ∧
    ((gameTick sq c now2 (handleHug now cl st).1).1.players.find?
        (fun p => p.id = b.id)).map Player.hugging = some false ∧
    (gameTick sq c now2 (handleHug now cl st).1).2.count (Event.hugEnded a.id) = 1 ∧
    (gameTick sq c now2 (handleHug now cl st).1).2.count (Event.hugEnded b.id) = 1 := by
  have hbMem2 : b ∈ st.players.filter (fun p => p.connected && !(p.id = a.id : Bool)) := by
    rw [hothers]
    exact List.mem_singleton_self b
  have hbMem : b ∈ st.players := (List.mem_filter.mp hbMem2).1
  have hbPred := (List.mem_filter.mp hbMem2).2
  simp only [Bool.and_eq_true, Bool.not_eq_true', decide_eq_false_iff_not] at hbPred
  have hbC : b.connected = true := hbPred.1
  have hfindB : st.players.find? (fun p => p.id = b.id) = some b :=
    find?_eq_self_of_mem st.players hnd b hbMem
  have hd : ¬((a.x - b.x) * (a.x - b.x) + (a.y - b.y) * (a.y - b.y) >
      HUG_PROXIMITY_THRESHOLD * HUG_PROXIMITY_THRESHOLD) := not_lt.mpr hdist
  have hstep : handleHug now cl st =
      ({ st with players := st.players.map (fun q =>
          if q.id = a.id ∨ q.id = b.id then
            hugUpdate ((a.y + b.y) / 2) (now + HUG_DURATION) q
          else q) },
       [Event.hugStarted a.id b.id]) := by
    simp only [handleHug, hcl, hfindA, hothers, haC, haH, hbH, hd]
    simp
  have hf : ∀ q : Player, ((fun q => if q.id = a.id ∨ q.id = b.id then
      hugUpdate ((a.y + b.y) / 2) (now + HUG_DURATION) q else q) q).id = q.id := by
    intro q
    by_cases h : q.id = a.id ∨ q.id = b.id
    · simp [h, hugUpdate]
    · simp [h]
  have hfindA2 : (handleHug now cl st).1.players.find? (fun p => p.id = a.id) =
      some (hugUpdate ((a.y + b.y) / 2) (now + HUG_DURATION) a) := by
    rw [hstep]
    show (st.players.map _).find? _ = _
    rw [find?_map_of_id_preserving st.players _ hf a.id, hfindA]
    simp
  have hfindB2 : (handleHug now cl st).1.players.find? (fun p => p.id = b.id) =
      some (hugUpdate ((a.y + b.y) / 2) (now + HUG_DURATION) b) := by
    rw [hstep]
    show (st.players.map _).find? _ = _
    rw [find?_map_of_id_preserving st.players _ hf b.id, hfindB]
    simp
  have hexpA : expireHug now2 (hugUpdate ((a.y + b.y) / 2) (now + HUG_DURATION) a) =
      { hugUpdate ((a.y + b.y) / 2) (now + HUG_DURATION) a with
          hugging := false, hugEndTime := 0 } := by
    unfold expireHug
    rw [if_pos]
    exact ⟨haC, rfl, hpos, hexp⟩
  have hexpB : expireHug now2 (hugUpdate ((a.y + b.y) / 2) (now + HUG_DURATION) b) =
      { hugUpdate ((a.y + b.y) / 2) (now + HUG_DURATION) b with
          hugging := false, hugEndTime := 0 } := by
    unfold expireHug
    rw [if_pos]
    exact ⟨hbC, rfl, hpos, hexp⟩
  have hhugA : (tickPlayerStep sq c now2
      (hugUpdate ((a.y + b.y) / 2) (now + HUG_DURATION) a)).hugging = false := by
    unfold tickPlayerStep
    rw [hexpA]
    exact (applyBufferedInput_fields sq c now2 _).2.2.1.trans rfl
  have hhugB : (tickPlayerStep sq c now2
      (hugUpdate ((a.y + b.y) / 2) (now + HUG_DURATION) b)).hugging = false := by
    unfold tickPlayerStep
    rw [hexpB]
    exact (applyBufferedInput_fields sq c now2 _).2.2.1.trans rfl
  have hfindA3 : (gameTick sq c now2 (handleHug now cl st).1).1.players.find?
      (fun p => p.id = a.id) =
      some (tickPlayerStep sq c now2
        (hugUpdate ((a.y + b.y) / 2) (now + HUG_DURATION) a)) := by
    show ((handleHug now cl st).1.players.map (tickPlayerStep sq c now2)).find?
        (fun p => p.id = a.id) = _
    rw [find?_map_of_id_preserving _ _ (tickPlayerStep_id sq c now2) a.id, hfindA2]
    rfl
  have hfindB3 : (gameTick sq c now2 (handleHug now cl st).1).1.players.find?
      (fun p => p.id = b.id) =
      some (tickPlayerStep sq c now2
        (hugUpdate ((a.y + b.y) / 2) (now + HUG_DURATION) b)) := by
    show ((handleHug now cl st).1.players.map (tickPlayerStep sq c now2)).find?
        (fun p => p.id = b.id) = _
    rw [find?_map_of_id_preserving _ _ (tickPlayerStep_id sq c now2) b.id, hfindB2]
    rfl
  have hnd2 : ((handleHug now cl st).1.players.map Player.id).Nodup := by
    have hids : (handleHug now cl st).1.players.map Player.id =
        st.players.map Player.id := by
      rw [hstep]
      show (st.players.map _).map Player.id = _
      rw [List.map_map]
      exact List.map_congr_left (fun q hq => hf q)
    rw [hids]
    exact hnd
  have hevents : (gameTick sq c now2 (handleHug now cl st).1).2 =
      (handleHug now cl st).1.players.filterMap (expireHugEvent now2) ++
        [Event.stateUpdate] := rfl
  have hPgen : ∀ x : String, ∀ q ∈ (handleHug now cl st).1.players,
      (expireHugEvent now2 q == some (Event.hugEnded x)) = true → q.id = x := by
    intro x q hq hPq
    unfold expireHugEvent at hPq
    split at hPq
    · simpa using hPq
    · simp at hPq
  have hevA : expireHugEvent now2
      (hugUpdate ((a.y + b.y) / 2) (now + HUG_DURATION) a) =
      some (Event.hugEnded a.id) := by
    unfold expireHugEvent
    rw [if_pos]
    · rfl
    · exact ⟨haC, rfl, hpos, hexp⟩
  have hevB : expireHugEvent now2
      (hugUpdate ((a.y + b.y) / 2) (now + HUG_DURATION) b) =
      some (Event.hugEnded b.id) := by
    unfold expireHugEvent
    rw [if_pos]
    · rfl
    · exact ⟨hbC, rfl, hpos, hexp⟩
  have hcountA : (gameTick sq c now2 (handleHug now cl st).1).2.count
      (Event.hugEnded a.id) = 1 := by
    rw [hevents, List.count_append, count_filterMap_event]
    have h1 : List.countP (fun p => expireHugEvent now2 p == some (Event.hugEnded a.id))
        (handleHug now cl st).1.players = 1 :=
      countP_eq_one_of_unique _ hnd2 a.id _ (hPgen a.id) _
        (List.mem_of_find?_eq_some hfindA2) rfl (by simp [hevA])
    rw [h1]
    simp
  have hcountB : (gameTick sq c now2 (handleHug now cl st).1).2.count
      (Event.hugEnded b.id) = 1 := by
    rw [hevents, List.count_append, count_filterMap_event]
    have h1 : List.countP (fun p => expireHugEvent now2 p == some (Event.hugEnded b.id))
        (handleHug now cl st).1.players = 1 :=
      countP_eq_one_of_unique _ hnd2 b.id _ (hPgen b.id) _
        (List.mem_of_find?_eq_some hfindB2) rfl (by simp [hevB])
    rw [h1]
    simp
  refine ⟨by rw [hstep], hfindA2, hfindB2, ?_, ?_, hcountA, hcountB⟩
  · rw [hfindA3, Option.map_some', hhugA]
  · rw [hfindB3, Option.map_some', hhugB]

/-- Concrete two-occupant state for the C3 witness. -/
def hugStateA : Player := { createPlayerState "a" "A" "1" 0 with x := 100, y := 100 }

def hugStateB : Player := { createPlayerState "b" "B" "1" 0 with x := 130, y := 110 }

def hugState : GameState :=
  { players := [hugStateA, hugStateB], objects := [], tick := 0, lastTick := 0 }

/-- Witness for C3: the concrete hug request broadcasts one embrace-started
event naming both occupants. -/
theorem hug_lifecycle_witness :
    (handleHug 0 { playerId := some "a" } hugState).2 =
      [Event.hugStarted "a" "b"] :=
  (hug_lifecycle sqId noCollide 0 5000 { playerId := some "a" } hugState
    hugStateA hugStateB rfl
    (by simp [hugState, hugStateA, hugStateB, createPlayerState])
    (by simp [hugState, hugStateA, createPlayerState])
    rfl rfl
    (by simp [hugState, hugStateA, hugStateB, createPlayerState])
    rfl
    (by norm_num [hugStateA, hugStateB, createPlayerState, HUG_PROXIMITY_THRESHOLD])
    (by norm_num [HUG_DURATION])
    (by norm_num [HUG_DURATION])).1

/-! ## Movement evaluation lemmas (used by the bench counterexample traces)

The traces run against the freshly initialised world's oracle
`initialCollide`, whose only obstruction is the static bench rectangle
x ∈ [2728, 2792], y ∈ [1474, 1506].  Both walks approach the bench from
above; the 9-point footprint's lowest sample is y + 0.1, so a step whose
destination satisfies y + 0.1 < 1474 is allowed, and the down-walks halt
at y = 1469.75 — still within the 100 px bench_sit radius.  All trace
inputs are axis-aligned, so the diagonal normalisation (and hence the
square-root parameter) is never consulted. -/

lemma inputVelocity_right (sq : ℚ → ℚ) :
    inputVelocity sq rightPacket.keys = (125, 0) := by
  simp [inputVelocity, rightPacket, keysRight, PLAYER_SPEED]

lemma inputVelocity_down (sq : ℚ → ℚ) :
    inputVelocity sq downPacket.keys = (0, 125) := by
  simp [inputVelocity, downPacket, keysDown, PLAYER_SPEED]

lemma canMoveTo_noCollide (x y : ℚ) : canMoveTo noCollide x y = true := by
  simp [canMoveTo, noCollide]

lemma benchStaticCollider_eval :
    benchStaticCollider = { left := 2728, top := 1474, width := 64, height := 32 } := by
  unfold benchStaticCollider
  norm_num [BENCH_X, BENCH_Y, BENCH_WIDTH, BENCH_HEIGHT, BENCH_SCALE,
    BENCH_COLLISION_SCALE, RectCollider.mk.injEq]

/-- With empty dynamic and object registries the only obstruction is the
bench rectangle, so any point outside it is free — whether or not it lies
on the tile map. -/
lemma isCollidable_empty_eq_false (x y : ℚ)
    (h : y < 1474 ∨ 1506 < y ∨ x < 2728 ∨ 2792 < x) :
    isCollidable [] [] x y = false := by
  have hpt : pointInRectCollider x y benchStaticCollider = false := by
    rw [benchStaticCollider_eval]
    unfold pointInRectCollider
    rw [decide_eq_false_iff_not]
    rintro ⟨h1, h2, h3, h4⟩
    norm_num at h1 h2 h3 h4
    rcases h with h | h | h | h <;> linarith
  simp only [isCollidable, List.any_nil]
  rw [if_neg (by simp)]
  split
  · rfl
  · rw [hpt]
    simp

/-- Any footprint strictly above the bench rectangle is walkable in the
freshly initialised world. -/
lemma canMoveTo_initial_of_above (x y : ℚ) (hy : y + 0.1 < 1474) :
    canMoveTo initialCollide x y = true := by
  unfold canMoveTo initialCollide
  rw [isCollidable_empty_eq_false x y (Or.inl (by linarith)),
      isCollidable_empty_eq_false (x - PLAYER_RADIUS) y (Or.inl (by linarith)),
      isCollidable_empty_eq_false (x + PLAYER_RADIUS) y (Or.inl (by linarith)),
      isCollidable_empty_eq_false x (y - PLAYER_RADIUS)
        (Or.inl (by norm_num [PLAYER_RADIUS]; linarith)),
      isCollidable_empty_eq_false x (y + PLAYER_RADIUS * 0.01)
        (Or.inl (by norm_num [PLAYER_RADIUS]; linarith)),
      isCollidable_empty_eq_false (x - PLAYER_RADIUS * 0.7) (y - PLAYER_RADIUS * 0.4)
        (Or.inl (by norm_num [PLAYER_RADIUS]; linarith)),
      isCollidable_empty_eq_false (x + PLAYER_RADIUS * 0.7) (y - PLAYER_RADIUS * 0.4)
        (Or.inl (by norm_num [PLAYER_RADIUS]; linarith)),
      isCollidable_empty_eq_false (x - PLAYER_RADIUS * 0.7) (y + PLAYER_RADIUS * 0.01)
        (Or.inl (by norm_num [PLAYER_RADIUS]; linarith)),
      isCollidable_empty_eq_false (x + PLAYER_RADIUS * 0.7) (y + PLAYER_RADIUS * 0.01)
        (Or.inl (by norm_num [PLAYER_RADIUS]; linarith))]
  rfl

lemma expireHug_not_hugging (now : ℚ) (p : Player) (hh : p.hugging = false) :
    expireHug now p = p := by
  unfold expireHug
  rw [if_neg]
  intro hcond
  rw [hh] at hcond
  exact Bool.false_ne_true hcond.2.1

lemma tickPlayerStep_right (c : ℚ → ℚ → Bool) (p : Player)
    (hc : p.connected = true) (hh : p.hugging = false) (hs : p.sitting = false)
    (hin : p.lastInput = some rightPacket)
    (hcan : canMoveTo c (p.x + 6.25) p.y = true)
    (hx0 : 0 ≤ p.x) (hx1 : p.x + 6.25 ≤ WORLD_WIDTH)
    (hy0 : 0 ≤ p.y) (hy1 : p.y ≤ WORLD_HEIGHT) :
    tickPlayerStep sqId c 0 p =
      { p with x := p.x + 6.25, vx := 125, vy := 0,
               lastInputSeq := max p.lastInputSeq 0, lastUpdate := 0 } := by
  have hstep1 : tickPlayerStep sqId c 0 p =
      processPlayerInput sqId c 0 p rightPacket := by
    unfold tickPlayerStep
    rw [expireHug_not_hugging 0 p hh]
    unfold applyBufferedInput
    rw [if_pos hc, if_neg (by simp [hh, hs]), hin]
  have hint : intendedX sqId p rightPacket = p.x + 6.25 := by
    unfold intendedX
    rw [inputVelocity_right]
    norm_num [TICK_INTERVAL]
  have hrx : resolvedX sqId c p rightPacket = p.x + 6.25 := by
    unfold resolvedX
    rw [hint, hcan, inputVelocity_right]
    norm_num
  have hry : resolvedY sqId c p rightPacket = p.y := by
    unfold resolvedY
    rw [inputVelocity_right]
    simp
  rw [hstep1, processPlayerInput_eq_axisResolved, hrx, hry, inputVelocity_right]
  have h1 : min WORLD_WIDTH (p.x + 6.25) = p.x + 6.25 := min_eq_right hx1
  have h2 : max 0 (p.x + 6.25) = p.x + 6.25 := max_eq_right (by linarith)
  have h3 : min WORLD_HEIGHT p.y = p.y := min_eq_right hy1
  have h4 : max 0 p.y = p.y := max_eq_right hy0
  rw [h1, h2, h3, h4]
  simp only [hint, hcan]
  simp [rightPacket]

lemma tickPlayerStep_down (c : ℚ → ℚ → Bool) (p : Player)
    (hc : p.connected = true) (hh : p.hugging = false) (hs : p.sitting = false)
    (hin : p.lastInput = some downPacket)
    (hcan : canMoveTo c p.x (p.y + 6.25) = true)
    (hx0 : 0 ≤ p.x) (hx1 : p.x ≤ WORLD_WIDTH)
    (hy0 : 0 ≤ p.y) (hy1 : p.y + 6.25 ≤ WORLD_HEIGHT) :
    tickPlayerStep sqId c 0 p =
      { p with y := p.y + 6.25, vx := 0, vy := 125,
               lastInputSeq := max p.lastInputSeq 0, lastUpdate := 0 } := by
  have hstep1 : tickPlayerStep sqId c 0 p =
      processPlayerInput sqId c 0 p downPacket := by
    unfold tickPlayerStep
    rw [expireHug_not_hugging 0 p hh]
    unfold applyBufferedInput
    rw [if_pos hc, if_neg (by simp [hh, hs]), hin]
  have hrx : resolvedX sqId c p downPacket = p.x := by
    unfold resolvedX
    rw [inputVelocity_down]
    simp
  have hint : intendedY sqId p downPacket = p.y + 6.25 := by
    unfold intendedY
    rw [inputVelocity_down]
    norm_num [TICK_INTERVAL]
  have hry : resolvedY sqId c p downPacket = p.y + 6.25 := by
    unfold resolvedY
    rw [hint, hrx, hcan, inputVelocity_down]
    norm_num
  rw [hstep1, processPlayerInput_eq_axisResolved, hrx, hry, inputVelocity_down]
  have h1 : min WORLD_WIDTH p.x = p.x := min_eq_right hx1
  have h2 : max 0 p.x = p.x := max_eq_right hx0
  have h3 : min WORLD_HEIGHT (p.y + 6.25) = p.y + 6.25 := min_eq_right hy1
  have h4 : max 0 (p.y + 6.25) = p.y + 6.25 := max_eq_right (by linarith)
  rw [h1, h2, h3, h4]
  simp only [hint, hrx, hcan]
  simp [downPacket]

/-- Iterated ticks of the trace (fixed square root, the freshly initialised
world's oracle, constant clock). -/
def tickN : ℕ → GameState → GameState
  | 0, st => st
  | Nat.succ n, st => tickN n (gameTick sqId initialCollide 0 st).1

/-! ## Bench counterexample trace

A complete message trace from the empty initial state: occupants a and b
join, walk to the bench (388 ticks right, then 207 ticks down, where the
static bench collider stops them at y = 1469.75, within the 100 px sit
radius), and sit.  From
there one branch has a stand up and re-sit (landing on the occupied left
seat), the other has both disconnect and a fresh occupant c walk over and
sit (a third seated occupant). -/

/-- Player record shape during the walking phases. -/
def mvP (id name : String) (x y vx vy : ℚ) (inp : Option InputPacket) : Player :=
  { id := id, name := name, character := "1", x := x, y := y, vx := vx, vy := vy,
    lastInputSeq := 0, lastInput := inp, connected := true, lastUpdate := 0,
    hugging := false, hugEndTime := 0, sitting := false }

/-- States during phase 1: both occupants walking right, tick k. -/
def stR (k : ℕ) (vx vy : ℚ) : GameState :=
  { players := [mvP "a" "A" (328 + 6.25 * k) 176 vx vy (some rightPacket),
                mvP "b" "B" (344 + 6.25 * k) 176 vx vy (some rightPacket)],
    objects := [], tick := k, lastTick := 0 }

lemma stR_tick (k : ℕ) (hk : k < 388) (vx vy : ℚ) :
    (gameTick sqId initialCollide 0 (stR k vx vy)).1 = stR (k + 1) 125 0 := by
  have hcast : (k : ℚ) ≤ 387 := by exact_mod_cast Nat.le_of_lt_succ hk
  have hxA : (328 + 6.25 * (k : ℚ)) + 6.25 ≤ WORLD_WIDTH := by
    norm_num [WORLD_WIDTH]
    linarith
  have hxB : (344 + 6.25 * (k : ℚ)) + 6.25 ≤ WORLD_WIDTH := by
    norm_num [WORLD_WIDTH]
    linarith
  have hcanA : canMoveTo initialCollide ((328 + 6.25 * (k : ℚ)) + 6.25) 176 = true :=
    canMoveTo_initial_of_above _ _ (by norm_num)
  have hcanB : canMoveTo initialCollide ((344 + 6.25 * (k : ℚ)) + 6.25) 176 = true :=
    canMoveTo_initial_of_above _ _ (by norm_num)
  have hx0A : (0 : ℚ) ≤ 328 + 6.25 * (k : ℚ) := by positivity
  have hx0B : (0 : ℚ) ≤ 344 + 6.25 * (k : ℚ) := by positivity
  have hy0 : (0 : ℚ) ≤ 176 := by norm_num
  have hy1 : (176 : ℚ) ≤ WORLD_HEIGHT := by norm_num [WORLD_HEIGHT]
  have hmap : (gameTick sqId initialCollide 0 (stR k vx vy)).1 =
      { stR k vx vy with
          players := (stR k vx vy).players.map (tickPlayerStep sqId initialCollide 0)
          tick := (stR k vx vy).tick + 1
          lastTick := 0 } := rfl
  rw [hmap]
  unfold stR
  simp only [List.map_cons, List.map_nil]
  rw [tickPlayerStep_right initialCollide
        (mvP "a" "A" (328 + 6.25 * (k : ℚ)) 176 vx vy (some rightPacket))
        rfl rfl rfl rfl hcanA hx0A hxA hy0 hy1,
      tickPlayerStep_right initialCollide
        (mvP "b" "B" (344 + 6.25 * (k : ℚ)) 176 vx vy (some rightPacket))
        rfl rfl rfl rfl hcanB hx0B hxB hy0 hy1]
  simp only [mvP, GameState.mk.injEq, List.cons.injEq, Player.mk.injEq, max_self,
    and_true, true_and]
  constructor <;> (push_cast; ring)

lemma tickN_stR (n k : ℕ) (h : k + n ≤ 388) :
    tickN n (stR k 125 0) = stR (k + n) 125 0 := by
  induction n generalizing k with
  | zero => rfl
  | succ m ih =>
      show tickN m (gameTick sqId initialCollide 0 (stR k 125 0)).1 = _
      rw [stR_tick k (by omega), ih (k + 1) (by omega)]
      have hkm : k + 1 + m = k + (m + 1) := by omega
      rw [hkm]

/-- States during phase 2: both occupants walking down, tick 388 + k. -/
def stD (k : ℕ) (vx vy : ℚ) : GameState :=
  { players := [mvP "a" "A" 2753 (176 + 6.25 * k) vx vy (some downPacket),
                mvP "b" "B" 2769 (176 + 6.25 * k) vx vy (some downPacket)],
    objects := [], tick := 388 + k, lastTick := 0 }

lemma stD_tick (k : ℕ) (hk : k < 207) (vx vy : ℚ) :
    (gameTick sqId initialCollide 0 (stD k vx vy)).1 = stD (k + 1) 0 125 := by
  have hcast : (k : ℚ) ≤ 206 := by exact_mod_cast Nat.le_of_lt_succ hk
  have hyA : (176 + 6.25 * (k : ℚ)) + 6.25 ≤ WORLD_HEIGHT := by
    norm_num [WORLD_HEIGHT]
    linarith
  have hcanA : canMoveTo initialCollide 2753 ((176 + 6.25 * (k : ℚ)) + 6.25) = true :=
    canMoveTo_initial_of_above _ _ (by linarith)
  have hcanB : canMoveTo initialCollide 2769 ((176 + 6.25 * (k : ℚ)) + 6.25) = true :=
    canMoveTo_initial_of_above _ _ (by linarith)
  have hx0A : (0 : ℚ) ≤ 2753 := by norm_num
  have hx1A : (2753 : ℚ) ≤ WORLD_WIDTH := by norm_num [WORLD_WIDTH]
  have hx0B : (0 : ℚ) ≤ 2769 := by norm_num
  have hx1B : (2769 : ℚ) ≤ WORLD_WIDTH := by norm_num [WORLD_WIDTH]
  have hy0 : (0 : ℚ) ≤ 176 + 6.25 * (k : ℚ) := by positivity
  have hmap : (gameTick sqId initialCollide 0 (stD k vx vy)).1 =
      { stD k vx vy with
          players := (stD k vx vy).players.map (tickPlayerStep sqId initialCollide 0)
          tick := (stD k vx vy).tick + 1
          lastTick := 0 } := rfl
  rw [hmap]
  unfold stD
  simp only [List.map_cons, List.map_nil]
  rw [tickPlayerStep_down initialCollide
        (mvP "a" "A" 2753 (176 + 6.25 * (k : ℚ)) vx vy (some downPacket))
        rfl rfl rfl rfl hcanA hx0A hx1A hy0 hyA,
      tickPlayerStep_down initialCollide
        (mvP "b" "B" 2769 (176 + 6.25 * (k : ℚ)) vx vy (some downPacket))
        rfl rfl rfl rfl hcanB hx0B hx1B hy0 hyA]
  simp only [mvP, GameState.mk.injEq, List.cons.injEq, Player.mk.injEq, max_self,
    and_true, true_and]
  refine ⟨⟨?_, ?_⟩, by omega⟩ <;> (push_cast; ring)

lemma tickN_stD (n k : ℕ) (h : k + n ≤ 207) :
    tickN n (stD k 0 125) = stD (k + n) 0 125 := by
  induction n generalizing k with
  | zero => rfl
  | succ m ih =>
      show tickN m (gameTick sqId initialCollide 0 (stD k 0 125)).1 = _
      rw [stD_tick k (by omega), ih (k + 1) (by omega)]
      have hkm : k + 1 + m = k + (m + 1) := by omega
      rw [hkm]

/-- Occupants a and b after sitting and disconnecting. -/
def pASit : Player :=
  { id := "a", name := "A", character := "1", x := 2774, y := 1511, vx := 0, vy := 0,
    lastInputSeq := 0, lastInput := some downPacket, connected := false,
    lastUpdate := 0, hugging := false, hugEndTime := 0, sitting := true }

def pBSit : Player :=
  { id := "b", name := "B", character := "1", x := 2746, y := 1511, vx := 0, vy := 0,
    lastInputSeq := 0, lastInput := some downPacket, connected := false,
    lastUpdate := 0, hugging := false, hugEndTime := 0, sitting := true }

/-- States during phase 3: occupant c walking right past the seated,
disconnected a and b; tick 595 + k. -/
def stRC (k : ℕ) (vx vy : ℚ) : GameState :=
  { players := [pASit, pBSit,
                mvP "c" "C" (328 + 6.25 * k) 176 vx vy (some rightPacket)],
    objects := [], tick := 595 + k, lastTick := 0 }

lemma stRC_tick (k : ℕ) (hk : k < 388) (vx vy : ℚ) :
    (gameTick sqId initialCollide 0 (stRC k vx vy)).1 = stRC (k + 1) 125 0 := by
  have hcast : (k : ℚ) ≤ 387 := by exact_mod_cast Nat.le_of_lt_succ hk
  have hxC : (328 + 6.25 * (k : ℚ)) + 6.25 ≤ WORLD_WIDTH := by
    norm_num [WORLD_WIDTH]
    linarith
  have hcanC : canMoveTo initialCollide ((328 + 6.25 * (k : ℚ)) + 6.25) 176 = true :=
    canMoveTo_initial_of_above _ _ (by norm_num)
  have hx0C : (0 : ℚ) ≤ 328 + 6.25 * (k : ℚ) := by positivity
  have hy0 : (0 : ℚ) ≤ 176 := by norm_num
  have hy1 : (176 : ℚ) ≤ WORLD_HEIGHT := by norm_num [WORLD_HEIGHT]
  have hmap : (gameTick sqId initialCollide 0 (stRC k vx vy)).1 =
      { stRC k vx vy with
          players := (stRC k vx vy).players.map (tickPlayerStep sqId initialCollide 0)
          tick := (stRC k vx vy).tick + 1
          lastTick := 0 } := rfl
  rw [hmap]
  unfold stRC
  simp only [List.map_cons, List.map_nil]
  rw [tickPlayerStep_not_connected sqId initialCollide 0 pASit rfl,
      tickPlayerStep_not_connected sqId initialCollide 0 pBSit rfl,
      tickPlayerStep_right initialCollide
        (mvP "c" "C" (328 + 6.25 * (k : ℚ)) 176 vx vy (some rightPacket))
        rfl rfl rfl rfl hcanC hx0C hxC hy0 hy1]
  simp only [mvP, GameState.mk.injEq, List.cons.injEq, Player.mk.injEq, max_self,
    and_true, true_and]
  refine ⟨?_, by omega⟩
  push_cast
  ring

lemma tickN_stRC (n k : ℕ) (h : k + n ≤ 388) :
    tickN n (stRC k 125 0) = stRC (k + n) 125 0 := by
  induction n generalizing k with
  | zero => rfl
  | succ m ih =>
      show tickN m (gameTick sqId initialCollide 0 (stRC k 125 0)).1 = _
      rw [stRC_tick k (by omega), ih (k + 1) (by omega)]
      have hkm : k + 1 + m = k + (m + 1) := by omega
      rw [hkm]

/-- States during phase 4: occupant c walking down; tick 983 + k. -/
def stDC (k : ℕ) (vx vy : ℚ) : GameState :=
  { players := [pASit, pBSit,
                mvP "c" "C" 2753 (176 + 6.25 * k) vx vy (some downPacket)],
    objects := [], tick := 983 + k, lastTick := 0 }

lemma stDC_tick (k : ℕ) (hk : k < 207) (vx vy : ℚ) :
    (gameTick sqId initialCollide 0 (stDC k vx vy)).1 = stDC (k + 1) 0 125 := by
  have hcast : (k : ℚ) ≤ 206 := by exact_mod_cast Nat.le_of_lt_succ hk
  have hyC : (176 + 6.25 * (k : ℚ)) + 6.25 ≤ WORLD_HEIGHT := by
    norm_num [WORLD_HEIGHT]
    linarith
  have hcanC : canMoveTo initialCollide 2753 ((176 + 6.25 * (k : ℚ)) + 6.25) = true :=
    canMoveTo_initial_of_above _ _ (by linarith)
  have hx0C : (0 : ℚ) ≤ 2753 := by norm_num
  have hx1C : (2753 : ℚ) ≤ WORLD_WIDTH := by norm_num [WORLD_WIDTH]
  have hy0 : (0 : ℚ) ≤ 176 + 6.25 * (k : ℚ) := by positivity
  have hmap : (gameTick sqId initialCollide 0 (stDC k vx vy)).1 =
      { stDC k vx vy with
          players := (stDC k vx vy).players.map (tickPlayerStep sqId initialCollide 0)
          tick := (stDC k vx vy).tick + 1
          lastTick := 0 } := rfl
  rw [hmap]
  unfold stDC
  simp only [List.map_cons, List.map_nil]
  rw [tickPlayerStep_not_connected sqId initialCollide 0 pASit rfl,
      tickPlayerStep_not_connected sqId initialCollide 0 pBSit rfl,
      tickPlayerStep_down initialCollide
        (mvP "c" "C" 2753 (176 + 6.25 * (k : ℚ)) vx vy (some downPacket))
        rfl rfl rfl rfl hcanC hx0C hx1C hy0 hyC]
  simp only [mvP, GameState.mk.injEq, List.cons.injEq, Player.mk.injEq, max_self,
    and_true, true_and]
  refine ⟨?_, by omega⟩
  push_cast
  ring

lemma tickN_stDC (n k : ℕ) (h : k + n ≤ 207) :
    tickN n (stDC k 0 125) = stDC (k + n) 0 125 := by
  induction n generalizing k with
  | zero => rfl
  | succ m ih =>
      show tickN m (gameTick sqId initialCollide 0 (stDC k 0 125)).1 = _
      rw [stDC_tick k (by omega), ih (k + 1) (by omega)]
      have hkm : k + 1 + m = k + (m + 1) := by omega
      rw [hkm]

/-! ### The trace itself -/

def joinA : GameState × Client × List Event :=
  handleJoin 0 "a" { playerId := none } (some "A") (some "1") none (createGameState 0)

def joinB : GameState × Client × List Event :=
  handleJoin 0 "b" { playerId := none } (some "B") (some "1") none joinA.1

def clA : Client := joinA.2.1

def clB : Client := joinB.2.1

def inA1 : GameState × List Event := handleInput clA rightPacket joinB.1

def inB1 : GameState × List Event := handleInput clB rightPacket inA1.1

lemma joinA_eval : joinA.1 =
    { players := [mvP "a" "A" 328 176 0 0 none], objects := [],
      tick := 0, lastTick := 0 } := by
  show (handleJoin 0 "a" { playerId := none } (some "A") (some "1") none
      (createGameState 0)).1 = _
  norm_num +decide [handleJoin, connectedCount, createGameState, MAX_PLAYERS, joinPlayerId,
    newJoinPlayer, createPlayerState, validCharacterOf, spawnPoint, setPlayer,
    TILE_SIZE, mvP]

def stWalk1 : GameState := tickN 388 inB1.1

def inA2 : GameState × List Event := handleInput clA downPacket stWalk1

def inB2 : GameState × List Event := handleInput clB downPacket inA2.1

def stWalk2 : GameState := tickN 207 inB2.1

def sitA : GameState × List Event := handleBenchSit 0 clA stWalk2

def sitB : GameState × List Event := handleBenchSit 0 clB sitA.1

def standA : GameState × List Event := handleBenchStand 0 clA sitB.1

def resitA : GameState × List Event := handleBenchSit 0 clA standA.1

def discA : GameState × List Event := handleDisconnect clA sitB.1

def discB : GameState × List Event := handleDisconnect clB discA.1

def joinC : GameState × Client × List Event :=
  handleJoin 0 "c" { playerId := none } (some "C") (some "1") none discB.1

/-- The client record bound by c's join (see `clC_binding`). -/
def clC : Client := { playerId := some "c" }

def inC1 : GameState × List Event := handleInput clC rightPacket joinC.1

def stWalk3 : GameState := tickN 388 inC1.1

def inC2 : GameState × List Event := handleInput clC downPacket stWalk3

def stWalk4 : GameState := tickN 207 inC2.1

def sitC : GameState × List Event := handleBenchSit 0 clC stWalk4

/-- Occupant record while seated (connected or not). -/
def sitP (id name : String) (x : ℚ) (conn : Bool) : Player :=
  { id := id, name := name, character := "1", x := x, y := 1511, vx := 0, vy := 0,
    lastInputSeq := 0, lastInput := some downPacket, connected := conn,
    lastUpdate := 0, hugging := false, hugEndTime := 0, sitting := true }

/-- a standing in front of the bench after standing up from the right seat. -/
def pAStand : Player :=
  { id := "a", name := "A", character := "1", x := 2810, y := 1511, vx := 0, vy := 0,
    lastInputSeq := 0, lastInput := some downPacket, connected := true,
    lastUpdate := 0, hugging := false, hugEndTime := 0, sitting := false }

/-! ### Stage evaluations -/

lemma tickN_succ (n : ℕ) (st : GameState) :
    tickN (n + 1) st = tickN n (gameTick sqId initialCollide 0 st).1 := rfl

lemma clA_eval : clA = { playerId := some "a" } := by
  show (handleJoin 0 "a" { playerId := none } (some "A") (some "1") none
      (createGameState 0)).2.1 = _
  norm_num +decide [handleJoin, connectedCount, createGameState, MAX_PLAYERS, joinPlayerId]

lemma joinB_eval : joinB.1 =
    { players := [mvP "a" "A" 328 176 0 0 none, mvP "b" "B" 344 176 0 0 none],
      objects := [], tick := 0, lastTick := 0 } := by
  show (handleJoin 0 "b" { playerId := none } (some "B") (some "1") none joinA.1).1 = _
  rw [joinA_eval]
  norm_num +decide [handleJoin, connectedCount, MAX_PLAYERS, joinPlayerId, newJoinPlayer,
    createPlayerState, validCharacterOf, spawnPoint, setPlayer, TILE_SIZE, mvP]

lemma clB_eval : clB = { playerId := some "b" } := by
  show (handleJoin 0 "b" { playerId := none } (some "B") (some "1") none joinA.1).2.1 = _
  rw [joinA_eval]
  norm_num +decide [handleJoin, connectedCount, MAX_PLAYERS, joinPlayerId, mvP]

lemma inA1_eval : inA1.1 =
    { players := [mvP "a" "A" 328 176 0 0 (some rightPacket),
                  mvP "b" "B" 344 176 0 0 none],
      objects := [], tick := 0, lastTick := 0 } := by
  show (handleInput clA rightPacket joinB.1).1 = _
  rw [clA_eval, joinB_eval]
  norm_num +decide [handleInput, setPlayer, mvP]

lemma inB1_eval : inB1.1 = stR 0 0 0 := by
  show (handleInput clB rightPacket inA1.1).1 = _
  rw [clB_eval, inA1_eval]
  norm_num +decide [handleInput, setPlayer, mvP, stR]

lemma stWalk1_eval : stWalk1 = stR 388 125 0 := by
  show tickN 388 inB1.1 = _
  rw [inB1_eval, show (388 : ℕ) = 387 + 1 from rfl, tickN_succ,
    stR_tick 0 (by omega) 0 0, tickN_stR 387 1 (by omega)]

lemma inA2_eval : inA2.1 =
    { players := [mvP "a" "A" 2753 176 125 0 (some downPacket),
                  mvP "b" "B" 2769 176 125 0 (some rightPacket)],
      objects := [], tick := 388, lastTick := 0 } := by
  show (handleInput clA downPacket stWalk1).1 = _
  rw [clA_eval, stWalk1_eval]
  norm_num +decide [handleInput, setPlayer, mvP, stR]

lemma inB2_eval : inB2.1 = stD 0 125 0 := by
  show (handleInput clB downPacket inA2.1).1 = _
  rw [clB_eval, inA2_eval]
  norm_num +decide [handleInput, setPlayer, mvP, stD]

lemma stWalk2_eval : stWalk2 = stD 207 0 125 := by
  show tickN 207 inB2.1 = _
  rw [inB2_eval, show (207 : ℕ) = 206 + 1 from rfl, tickN_succ,
    stD_tick 0 (by omega) 125 0, tickN_stD 206 1 (by omega)]

lemma sitA_eval : sitA.1 =
    { players := [sitP "a" "A" 2774 true,
                  mvP "b" "B" 2769 1469.75 0 125 (some downPacket)],
      objects := [], tick := 595, lastTick := 0 } := by
  show (handleBenchSit 0 clA stWalk2).1 = _
  rw [clA_eval, stWalk2_eval]
  norm_num +decide [handleBenchSit, sittingConnectedCount, setPlayer, stD, mvP, sitP,
    BENCH_X, BENCH_Y, BENCH_SEAT_OFFSET]

lemma sitB_eval : sitB.1 =
    { players := [sitP "a" "A" 2774 true, sitP "b" "B" 2746 true],
      objects := [], tick := 595, lastTick := 0 } := by
  show (handleBenchSit 0 clB sitA.1).1 = _
  rw [clB_eval, sitA_eval]
  norm_num +decide [handleBenchSit, sittingConnectedCount, setPlayer, mvP, sitP,
    BENCH_X, BENCH_Y, BENCH_SEAT_OFFSET]

lemma standA_eval : standA.1 =
    { players := [pAStand, sitP "b" "B" 2746 true],
      objects := [], tick := 595, lastTick := 0 } := by
  show (handleBenchStand 0 clA sitB.1).1 = _
  rw [clA_eval, sitB_eval]
  norm_num +decide [handleBenchStand, setPlayer, sitP, pAStand, BENCH_X, BENCH_Y,
    STAND_OFFSET]

lemma resitA_eval : resitA.1 =
    { players := [sitP "a" "A" 2746 true, sitP "b" "B" 2746 true],
      objects := [], tick := 595, lastTick := 0 } := by
  show (handleBenchSit 0 clA standA.1).1 = _
  rw [clA_eval, standA_eval]
  norm_num +decide [handleBenchSit, sittingConnectedCount, setPlayer, sitP, pAStand,
    BENCH_X, BENCH_Y, BENCH_SEAT_OFFSET]

lemma discB_eval : discB.1 =
    { players := [pASit, pBSit], objects := [], tick := 595, lastTick := 0 } := by
  show (handleDisconnect clB (handleDisconnect clA sitB.1).1).1 = _
  rw [clA_eval, clB_eval, sitB_eval]
  norm_num +decide [handleDisconnect, setPlayer, sitP, pASit, pBSit]

lemma joinC_full : joinC =
    ({ players := [pASit, pBSit, mvP "c" "C" 328 176 0 0 none],
       objects := [], tick := 595, lastTick := 0 },
     { playerId := some "c" },
     [Event.welcome "c", Event.playerJoined "c"]) := by
  show handleJoin 0 "c" { playerId := none } (some "C") (some "1") none discB.1 = _
  rw [discB_eval]
  norm_num +decide [handleJoin, connectedCount, MAX_PLAYERS, joinPlayerId, newJoinPlayer,
    createPlayerState, validCharacterOf, spawnPoint, setPlayer, TILE_SIZE, mvP,
    pASit, pBSit]

lemma joinC_eval : joinC.1 =
    { players := [pASit, pBSit, mvP "c" "C" 328 176 0 0 none],
      objects := [], tick := 595, lastTick := 0 } := by
  rw [joinC_full]

lemma clC_binding : joinC.2.1 = clC := by
  rw [joinC_full]
  rfl

lemma inC1_eval : inC1.1 = stRC 0 0 0 := by
  show (handleInput clC rightPacket joinC.1).1 = _
  rw [joinC_eval]
  norm_num +decide [handleInput, clC, setPlayer, mvP, stRC, pASit, pBSit]

lemma stWalk3_eval : stWalk3 = stRC 388 125 0 := by
  show tickN 388 inC1.1 = _
  rw [inC1_eval, show (388 : ℕ) = 387 + 1 from rfl, tickN_succ,
    stRC_tick 0 (by omega) 0 0, tickN_stRC 387 1 (by omega)]

lemma inC2_eval : inC2.1 = stDC 0 125 0 := by
  show (handleInput clC downPacket stWalk3).1 = _
  rw [stWalk3_eval]
  norm_num +decide [handleInput, clC, setPlayer, mvP, stRC, stDC, pASit, pBSit]

lemma stWalk4_eval : stWalk4 = stDC 207 0 125 := by
  show tickN 207 inC2.1 = _
  rw [inC2_eval, show (207 : ℕ) = 206 + 1 from rfl, tickN_succ,
    stDC_tick 0 (by omega) 125 0, tickN_stDC 206 1 (by omega)]

/-! ## C4 and C5 -/

lemma sittingConnectedCount_eq_countP (st : GameState) :
    sittingConnectedCount st = st.players.countP (fun p => p.connected && p.sitting) := by
  unfold sittingConnectedCount
  rw [List.countP_eq_length_filter]

/-- Reduction of `handleBenchSit` for an authenticated connected requester. -/
lemma handleBenchSit_eq (now : ℚ) (cl : Client) (st : GameState)
    (pid : String) (player : Player)
    (hcl : cl.playerId = some pid)
    (hfind : st.players.find? (fun p => p.id = pid) = some player)
    (hconn : player.connected = true) :
    handleBenchSit now cl st =
      (if player.sitting = true then (st, [])
       else if (player.x - BENCH_X) * (player.x - BENCH_X) +
           (player.y - BENCH_Y) * (player.y - BENCH_Y) > 100 * 100 then (st, [])
       else if sittingConnectedCount st ≥ 2 then (st, [])
       else ({ st with
                 players := setPlayer st.players
                   { player with
                       x := BENCH_X + (if sittingConnectedCount st = 0
                           then BENCH_SEAT_OFFSET else -BENCH_SEAT_OFFSET),
                       y := BENCH_Y, vx := 0, vy := 0, sitting := true,
                       lastUpdate := now } },
             [Event.stateUpdate])) := by
  simp only [handleBenchSit, hcl, hfind]
  rw [if_neg (by simp [hconn])]

/-- C4 (amended): a bench_sit request while 2 connected occupants are seated
is a no-op emitting nothing, as is a request from farther than 100 px from
the bench anchor; a bench_sit never pushes the number of connected seated
occupants above 2.  (Seated occupants that disconnect keep `seated = true`
but stop counting, so the number of occupants with `seated = true` can
exceed 2 — see the counterexample.) -/
theorem bench_sit_connected_seat_limit (now : ℚ) (cl : Client) (st : GameState)
    (pid : String) (player : Player)
    (hcl : cl.playerId = some pid)
    (hnd : (st.players.map Player.id).Nodup)
    (hfind : st.players.find? (fun p => p.id = pid) = some player)
    (hconn : player.connected = true) :
    (sittingConnectedCount st ≥ 2 → handleBenchSit now cl st = (st, [])) ∧
    ((player.x - BENCH_X) * (player.x - BENCH_X) +
        (player.y - BENCH_Y) * (player.y - BENCH_Y) > 100 * 100 →
      handleBenchSit now cl st = (st, [])) ∧
    (sittingConnectedCount st ≤ 2 →
      sittingConnectedCount (handleBenchSit now cl st).1 ≤ 2) := by
  have hred := handleBenchSit_eq now cl st pid player hcl hfind hconn
  refine ⟨?_, ?_, ?_⟩
  · intro hge
    rw [hred]
    by_cases hsit : player.sitting = true
    · rw [if_pos hsit]
    · rw [if_neg hsit]
      by_cases hdist : (player.x - BENCH_X) * (player.x - BENCH_X) +
          (player.y - BENCH_Y) * (player.y - BENCH_Y) > 100 * 100
      · rw [if_pos hdist]
      · rw [if_neg hdist, if_pos hge]
  · intro hdist
    rw [hred]
    by_cases hsit : player.sitting = true
    · rw [if_pos hsit]
    · rw [if_neg hsit, if_pos hdist]
  · intro hle
    rw [hred]
    by_cases hsit : player.sitting = true
    · rw [if_pos hsit]
      exact hle
    · rw [if_neg hsit]
      by_cases hdist : (player.x - BENCH_X) * (player.x - BENCH_X) +
          (player.y - BENCH_Y) * (player.y - BENCH_Y) > 100 * 100
      · rw [if_pos hdist]
        exact hle
      · rw [if_neg hdist]
        by_cases hge : sittingConnectedCount st ≥ 2
        · rw [if_pos hge]
          exact hle
        · rw [if_neg hge]
          have hlt : sittingConnectedCount st < 2 := by omega
          show sittingConnectedCount { st with players := setPlayer st.players _ } ≤ 2
          have hmem : player ∈ st.players := List.mem_of_find?_eq_some hfind
          have hany : st.players.any (fun q =>
              q.id = ({ player with
                  x := BENCH_X + (if sittingConnectedCount st = 0
                      then BENCH_SEAT_OFFSET else -BENCH_SEAT_OFFSET),
                  y := BENCH_Y, vx := 0, vy := 0, sitting := true,
                  lastUpdate := now } : Player).id) = true := by
            rw [List.any_eq_true]
            exact ⟨player, hmem, by simp⟩
          unfold setPlayer
          rw [if_pos hany]
          rw [sittingConnectedCount_eq_countP] at hlt ⊢
          calc List.countP (fun p => p.connected && p.sitting) _ ≤
              List.countP (fun p => p.connected && p.sitting) st.players + 1 :=
                countP_update_le _ _ _ st.players hnd
            _ ≤ 2 := by omega

/-- Concrete state for the C4 witness: both seats taken by connected
occupants, a third connected occupant near the bench. -/
def benchFullState : GameState :=
  { players := [sitP "a" "A" 2774 true, sitP "b" "B" 2746 true,
                mvP "c" "C" 2753 1507.25 0 0 (some downPacket)],
    objects := [], tick := 0, lastTick := 0 }

/-- Witness for C4 (amended): a bench_sit while two connected occupants are
seated is a silent no-op. -/
theorem bench_sit_connected_seat_limit_witness :
    handleBenchSit 0 { playerId := some "c" } benchFullState = (benchFullState, []) :=
  (bench_sit_connected_seat_limit 0 { playerId := some "c" } benchFullState "c"
    (mvP "c" "C" 2753 1507.25 0 0 (some downPacket))
    rfl
    (by norm_num +decide [benchFullState, sitP, mvP])
    (by norm_num +decide [benchFullState, sitP, mvP])
    rfl).1
    (by norm_num +decide [sittingConnectedCount, benchFullState, sitP, mvP])

/-- C5 (amended): a successful bench_sit teleports the requester to exactly
one of the two fixed mirrored seat offsets, `benchX + 14` when zero
connected occupants are seated and `benchX - 14` when one is; assignment
is by the count of currently connected seated occupants, not by seat
occupancy, so two simultaneously seated occupants can end up on the same
offset (see the counterexample). -/
theorem bench_seat_offset_by_connected_count (now : ℚ) (cl : Client)
    (st : GameState) (pid : String) (player : Player)
    (hcl : cl.playerId = some pid)
    (hfind : st.players.find? (fun p => p.id = pid) = some player)
    (hconn : player.connected = true)
    (hnotsit : player.sitting = false)
    (hdist : (player.x - BENCH_X) * (player.x - BENCH_X) +
        (player.y - BENCH_Y) * (player.y - BENCH_Y) ≤ 100 * 100)
    (hcount : sittingConnectedCount st < 2) :
    handleBenchSit now cl st =
      ({ st with
           players := setPlayer st.players
             { player with
                 x := BENCH_X + (if sittingConnectedCount st = 0
                     then BENCH_SEAT_OFFSET else -BENCH_SEAT_OFFSET),
                 y := BENCH_Y, vx := 0, vy := 0, sitting := true,
                 lastUpdate := now } },
       [Event.stateUpdate]) ∧
    (BENCH_X + (if sittingConnectedCount st = 0
        then BENCH_SEAT_OFFSET else -BENCH_SEAT_OFFSET) = 2774 ∨
     BENCH_X + (if sittingConnectedCount st = 0
        then BENCH_SEAT_OFFSET else -BENCH_SEAT_OFFSET) = 2746) := by
  have hred := handleBenchSit_eq now cl st pid player hcl hfind hconn
  constructor
  · rw [hred, if_neg (by simp [hnotsit]), if_neg (not_lt.mpr hdist),
      if_neg (by omega)]
  · by_cases h : sittingConnectedCount st = 0
    · left
      rw [if_pos h]
      norm_num [BENCH_X, BENCH_SEAT_OFFSET]
    · right
      rw [if_neg h]
      norm_num [BENCH_X, BENCH_SEAT_OFFSET]

/-- Concrete state for the C5 witness: an empty bench and one connected
occupant within range. -/
def benchSoloState : GameState :=
  { players := [mvP "p1" "P" 2753 1507.25 0 0 none],
    objects := [], tick := 0, lastTick := 0 }

/-- Witness for C5 (amended): the first sitter lands on the right seat. -/
theorem bench_seat_offset_by_connected_count_witness :
    handleBenchSit 0 { playerId := some "p1" } benchSoloState =
      ({ benchSoloState with
           players := setPlayer benchSoloState.players
             { (mvP "p1" "P" 2753 1507.25 0 0 none) with
                 x := BENCH_X + (if sittingConnectedCount benchSoloState = 0
                     then BENCH_SEAT_OFFSET else -BENCH_SEAT_OFFSET),
                 y := BENCH_Y, vx := 0, vy := 0, sitting := true,
                 lastUpdate := 0 } },
       [Event.stateUpdate]) :=
  (bench_seat_offset_by_connected_count 0 { playerId := some "p1" }
    benchSoloState "p1" (mvP "p1" "P" 2753 1507.25 0 0 none)
    rfl
    (by norm_num +decide [benchSoloState, mvP])
    rfl rfl
    (by norm_num [mvP, BENCH_X, BENCH_Y])
    (by norm_num +decide [sittingConnectedCount, benchSoloState, mvP])).1

/-- Counterexample to C5 as stated: after the reachable trace join a, join b,
walk both to the bench, sit a, sit b, stand a, sit a again, the two
occupants a and b are simultaneously seated at the same position
(2746, 1511) — the left seat — and both are connected. -/
theorem bench_same_seat_counterexample :
    ((resitA.1.players.find? (fun p => p.id = "a")).map
        (fun p => (p.x, p.y, p.sitting, p.connected)) =
      some (2746, 1511, true, true)) ∧
    ((resitA.1.players.find? (fun p => p.id = "b")).map
        (fun p => (p.x, p.y, p.sitting, p.connected)) =
      some (2746, 1511, true, true)) := by
  rw [resitA_eval]
  norm_num +decide [sitP]

/-- Counterexample to C4 as stated: after the reachable trace join a, join b,
walk to bench, sit a, sit b, disconnect a, disconnect b, join c, walk c to
the bench, the state has 2 occupants with `seated = true`, yet c's
bench_sit request is not a no-op (it emits a snapshot) and leaves 3
occupants with `seated = true`. -/
lemma sitC_full : sitC =
    ({ players := [pASit, pBSit, sitP "c" "C" 2774 true],
       objects := [], tick := 1190, lastTick := 0 },
     [Event.stateUpdate]) := by
  show handleBenchSit 0 clC stWalk4 = _
  rw [stWalk4_eval]
  norm_num +decide [handleBenchSit, clC, sittingConnectedCount, setPlayer, stDC,
    mvP, pASit, pBSit, sitP, BENCH_X, BENCH_Y, BENCH_SEAT_OFFSET]

theorem bench_three_seated_counterexample :
    (stWalk4.players.filter (fun p => p.sitting)).length = 2 ∧
    sitC.2 = [Event.stateUpdate] ∧
    (sitC.1.players.filter (fun p => p.sitting)).length = 3 := by
  refine ⟨?_, ?_, ?_⟩
  · rw [stWalk4_eval]
    norm_num +decide [stDC, mvP, pASit, pBSit]
  · rw [sitC_full]
  · rw [sitC_full]
    norm_num +decide [pASit, pBSit, sitP]

end BasWebGame
